import Mathlib

/-!
Shallow embedding of the cryptopunks-subgraph mapping code
(src/utils/helpers.ts and src/crypto-punks-market.ts) and proofs about it.

Entities mirror schema.graphql; the store is a collection of id-indexed
partial maps, one per entity type, as provided by the graph-node store.
External collaborators (the time-bucket id function `timestampToId`, the
USD oracle `USDValue`, the wash-trade list and the wrapper address) are
packaged in an `Env` record and kept abstract.
-/

namespace CryptoPunks

/-- constants.ts: ZERO_ADDRESS. -/
def ZERO_ADDRESS : String := "0x0000000000000000000000000000000000000000"

/-- schema.graphql: Account { id, punks }. -/
structure Account where
  id : String
  punks : List String
deriving DecidableEq, Repr

/-- schema.graphql: Punk { id, owner, wrapped }. -/
structure Punk where
  id : String
  owner : String
  wrapped : Bool
deriving DecidableEq, Repr

/-- schema.graphql: Listing entity (usd is nullable). -/
structure Listing where
  id : String
  punk : String
  value : Int
  usd : Option Int
  fromAccount : String
  toAccount : String
  isPrivate : Bool
  blockNumber : Int
  blockTimestamp : Int
  transactionHash : String
deriving DecidableEq, Repr

/-- schema.graphql: Bid entity (usd is nullable). -/
structure Bid where
  id : String
  punk : String
  value : Int
  usd : Option Int
  fromAccount : String
  blockNumber : Int
  blockTimestamp : Int
  transactionHash : String
deriving DecidableEq, Repr

/-- schema.graphql: Event entity (fromAccount, toAccount, usd nullable). -/
structure Event where
  id : String
  transactionHash : String
  type : String
  tokenId : Int
  fromAccount : Option String
  toAccount : Option String
  value : Int
  usd : Option Int
  blockNumber : Int
  blockTimestamp : Int
deriving DecidableEq, Repr

/-- schema.graphql: State (snapshot) entity; usd is nullable and is left
unset by getOrCreateState. -/
structure State where
  id : String
  timestamp : Int
  floor : Int
  volume : Int
  topBid : Option String
  bids : Int
  topSale : Option String
  sales : Int
  owners : Int
  activeListings : List String
  listings : Int
  delistings : Int
  usd : Option Int
deriving DecidableEq, Repr

/-- schema.graphql: Transfer entity (tokenId nullable). -/
structure Transfer where
  id : String
  fromAddress : String
  toAddress : String
  transactionHash : String
  tokenId : Option String
deriving DecidableEq, Repr

/-- The graph-node key-value store: one id-indexed partial map per entity
type (load-by-id / save / delete). -/
structure Store where
  accounts : String → Option Account
  punks : String → Option Punk
  listings : String → Option Listing
  bids : String → Option Bid
  events : String → Option Event
  states : String → Option State
  transfers : String → Option Transfer

/-- Point update of an id-indexed map (save = `upd m k (some v)`,
delete = `upd m k none`). -/
def upd {α : Type} (m : String → Option α) (k : String) (v : Option α) :
    String → Option α :=
  fun q => if q = k then v else m q

/-- External collaborators consumed by the core: the time-bucket id
function `timestampToId(ts, lookback)`, the USD oracle, the wash-trade
transaction list and the wrapper address. -/
structure Env where
  timestampToId : Int → Nat → String
  usdValue : Int → Int → Int
  washTrades : List String
  wrapperAddress : String

/-- BigInt.toI32 truncation (two's-complement wrap to 32 bits). -/
def toI32 (n : Int) : Int := (n + 2 ^ 31) % 2 ^ 32 - 2 ^ 31

/-- helpers.ts getGlobalId: txHash-logIndex. -/
def getGlobalId (txHash : String) (logIndex : Int) : String :=
  txHash ++ "-" ++ toString logIndex

def saveAccount (store : Store) (a : Account) : Store :=
  { store with accounts := upd store.accounts a.id (some a) }

def savePunk (store : Store) (p : Punk) : Store :=
  { store with punks := upd store.punks p.id (some p) }

def saveListing (store : Store) (l : Listing) : Store :=
  { store with listings := upd store.listings l.id (some l) }

def saveBid (store : Store) (b : Bid) : Store :=
  { store with bids := upd store.bids b.id (some b) }

def saveEvent (store : Store) (e : Event) : Store :=
  { store with events := upd store.events e.id (some e) }

def saveState (store : Store) (s : State) : Store :=
  { store with states := upd store.states s.id (some s) }

/-- helpers.ts getOrCreateAccount (call sites use the default
createIfNotFound = true, save = true). -/
def getOrCreateAccount (store : Store) (id : String) : Account × Store :=
  match store.accounts id with
  | some a => (a, store)
  | none =>
    let a : Account := { id := id, punks := [] }
    (a, saveAccount store a)

/-- helpers.ts getOrCreatePunk (call sites use the defaults). -/
def getOrCreatePunk (store : Store) (id : String) : Punk × Store :=
  match store.punks id with
  | some p => (p, store)
  | none =>
    let p : Punk := { id := id, owner := ZERO_ADDRESS, wrapped := false }
    (p, savePunk store p)

/-- helpers.ts getOrCreateState, the do/while lookback loop:
tries lookbacks i, i+1, ... while nothing is found and at most `fuel`
probes remain; the source runs it with i = 1 and 30 probes total. -/
def stateLookback (env : Env) (store : Store) (ts : Int) :
    Nat → Nat → Option State
  | _, 0 => none
  | i, fuel + 1 =>
    match store.states (env.timestampToId ts i) with
    | some s => some s
    | none => stateLookback env store ts (i + 1) fuel

/-- helpers.ts getFloorFromActiveListings, the for loop accumulating the
minimum strictly-positive listing value (acc starts at null). -/
def floorLoop (store : Store) : List String → Option Int → Option Int
  | [], acc => acc
  | lid :: rest, acc =>
    let acc2 :=
      match store.listings lid with
      | some l =>
        if 0 < l.value then
          match acc with
          | none => some l.value
          | some f => if l.value < f then some l.value else some f
        else acc
      | none => acc
    floorLoop store rest acc2

/-- helpers.ts getFloorFromActiveListings: previous-bucket fallback when
fewer than 5 active-listing entries, otherwise the minimum positive
value among the still-existing listings (0 when none). -/
def getFloorFromActiveListings (env : Env) (store : Store) (state : State) :
    Int :=
  let prevId := env.timestampToId (toI32 state.timestamp) 1
  let prevFloor : Int :=
    match store.states prevId with
    | some p => p.floor
    | none => 0
  let listings := state.activeListings
  if listings.length < 5 then prevFloor
  else
    match floorLoop store listings none with
    | some f => f
    | none => 0

/-- helpers.ts getOrCreateState: returns the bucket's snapshot if it
exists; otherwise builds a fresh one with zeroed period counters,
carrying owners and activeListings forward from the nearest snapshot
within 30 buckets back (and recomputing the floor when the carried
listing set is non-empty). The new snapshot is not saved here; callers
save it. -/
def getOrCreateState (env : Env) (store : Store) (timestamp : Int) : State :=
  let ts := toI32 timestamp
  let id := env.timestampToId ts 0
  let prevState := stateLookback env store ts 1 30
  let prevListings : List String :=
    match prevState with
    | some p => p.activeListings
    | none => []
  let prevOwners : Int :=
    match prevState with
    | some p => p.owners
    | none => 0
  match store.states id with
  | some s => s
  | none =>
    let st : State :=
      { id := id, timestamp := timestamp, topBid := none, topSale := none,
        listings := 0, delistings := 0, bids := 0, sales := 0,
        volume := 0, floor := 0, owners := prevOwners,
        activeListings := prevListings, usd := none }
    if prevListings.length > 0 then
      { st with floor := getFloorFromActiveListings env store st }
    else st

/-- helpers.ts updateOwnership: owner-counter update, held-set update on
both accounts (filter on the sender, push on the receiver), punk owner
update. -/
def updateOwnership (env : Env) (store : Store) (_transactionHash : String)
    (blockTimestamp : Int) (punkId : String) (toAddress : String)
    (fromAddress : String) : Store :=
  let r1 := getOrCreateAccount store toAddress
  let toAccount := r1.1
  let r2 := getOrCreateAccount r1.2 fromAddress
  let fromAccount := r2.1
  let store2 := r2.2
  let toHolderPunks := toAccount.punks
  let fromHolderPunks := fromAccount.punks
  let state := getOrCreateState env store2 blockTimestamp
  let prevOwners := state.owners
  let prevOwners := if fromHolderPunks.length = 1 then prevOwners - 1 else prevOwners
  let prevOwners := if toHolderPunks.length = 0 then prevOwners + 1 else prevOwners
  let store3 := saveState store2 { state with owners := prevOwners }
  let newFromHolderPunks := fromHolderPunks.filter (fun n => n ≠ punkId)
  let fromAccount := { fromAccount with punks := newFromHolderPunks }
  let toAccount := { toAccount with punks := toHolderPunks ++ [punkId] }
  let store4 := saveAccount store3 fromAccount
  let store5 := saveAccount store4 toAccount
  let r3 := getOrCreatePunk store5 punkId
  let punk := { r3.1 with owner := toAccount.id }
  savePunk r3.2 punk

/-- helpers.ts loadPrevBidEvent. -/
def loadPrevBidEvent (store : Store) : Option String → Option Event
  | none => none
  | some tid => store.events tid

/-- helpers.ts loadPrevSaleEvent. -/
def loadPrevSaleEvent (store : Store) : Option String → Option Event
  | none => none
  | some tid => store.events tid

/-- helpers.ts setPunkNoLongerForSale: deletes the Listing if present
and, when removeBid, the Bid too. -/
def setPunkNoLongerForSale (store : Store) (punkId : String)
    (removeBid : Bool) : Store :=
  let store1 :=
    match store.listings punkId with
    | some _ => { store with listings := upd store.listings punkId none }
    | none => store
  if removeBid then
    match store1.bids punkId with
    | some _ => { store1 with bids := upd store1.bids punkId none }
    | none => store1
  else store1

/-- PunkOffered(punkIndex, minValue, toAddress) with block/tx metadata;
txFrom is event.transaction.from. -/
structure PunkOfferedEvent where
  punkIndex : Int
  minValue : Int
  toAddress : String
  txHash : String
  logIndex : Int
  blockNumber : Int
  blockTimestamp : Int
  txFrom : String
deriving DecidableEq, Repr

/-- PunkBidEntered(punkIndex, value, fromAddress) with metadata. -/
structure PunkBidEnteredEvent where
  punkIndex : Int
  value : Int
  fromAddress : String
  txHash : String
  logIndex : Int
  blockNumber : Int
  blockTimestamp : Int
deriving DecidableEq, Repr

/-- PunkBought(punkIndex, value, fromAddress, toAddress) with metadata. -/
structure PunkBoughtEvent where
  punkIndex : Int
  value : Int
  fromAddress : String
  toAddress : String
  txHash : String
  logIndex : Int
  blockNumber : Int
  blockTimestamp : Int
deriving DecidableEq, Repr

/-- PunkNoLongerForSale(punkIndex) with metadata. -/
structure PunkNoLongerForSaleEvent where
  punkIndex : Int
  txHash : String
  logIndex : Int
  blockNumber : Int
  blockTimestamp : Int
deriving DecidableEq, Repr

/-- crypto-punks-market.ts handlePunkOffered: create/overwrite the
Listing, append the Offered event, bump the listings counter, push the
token id onto activeListings, and lower the floor directly when the
offer is restricted (toAccount.id != ZERO_ADDRESS), nonzero and below
the current floor. -/
def handlePunkOffered (env : Env) (store : Store) (e : PunkOfferedEvent) :
    Store :=
  let punkOfferedTokenId := toString e.punkIndex
  let r1 := getOrCreateAccount store e.txFrom
  let fromAccount := r1.1
  let r2 := getOrCreateAccount r1.2 e.toAddress
  let toAccount := r2.1
  let store := r2.2
  -- Punk.load / new Punk: only punk.id is read (never saved here)
  let punkRefId :=
    match store.punks punkOfferedTokenId with
    | some p => p.id
    | none => punkOfferedTokenId
  let listing : Listing :=
    { id := punkOfferedTokenId, punk := punkRefId,
      value := e.minValue,
      usd := some (env.usdValue e.blockTimestamp e.blockNumber),
      fromAccount := fromAccount.id, toAccount := toAccount.id,
      isPrivate := toAccount.id ≠ ZERO_ADDRESS,
      blockNumber := e.blockNumber, blockTimestamp := e.blockTimestamp,
      transactionHash := e.txHash }
  let store := saveListing store listing
  let evntId := getGlobalId e.txHash e.logIndex
  let evnt : Event :=
    { id := evntId, transactionHash := e.txHash, type := "Offered",
      tokenId := e.punkIndex, fromAccount := some fromAccount.id,
      toAccount := some toAccount.id, value := e.minValue,
      usd := some (env.usdValue e.blockTimestamp e.blockNumber),
      blockNumber := e.blockNumber, blockTimestamp := e.blockTimestamp }
  let store := saveEvent store evnt
  let state := getOrCreateState env store e.blockTimestamp
  let state := { state with listings := state.listings + 1 }
  -- `if (state.activeListings)` on a non-nullable array is always true
  let activeListings := state.activeListings ++ [punkOfferedTokenId]
  let state := { state with activeListings := activeListings }
  let listingVal := e.minValue
  let state :=
    if toAccount.id ≠ ZERO_ADDRESS ∧ listingVal ≠ 0 ∧ listingVal < state.floor
    then { state with floor := listingVal }
    else state
  let state :=
    { state with usd := some (env.usdValue e.blockTimestamp e.blockNumber) }
  saveState store state

/-- crypto-punks-market.ts handlePunkBidEntered: create/overwrite the
Bid, append the BidEntered event, update the top-bid reference and bump
the bids counter. -/
def handlePunkBidEntered (env : Env) (store : Store)
    (e : PunkBidEnteredEvent) : Store :=
  let punkBidEnteredTokenId := toString e.punkIndex
  let r1 := getOrCreateAccount store e.fromAddress
  let fromAccount := r1.1
  let store := r1.2
  -- Punk.load / new Punk: only punk.id is read (never saved here)
  let punkRefId :=
    match store.punks punkBidEnteredTokenId with
    | some p => p.id
    | none => punkBidEnteredTokenId
  -- Bid.load / new Bid: every field is overwritten below
  let bid : Bid :=
    { id := punkBidEnteredTokenId, punk := punkRefId, value := e.value,
      usd := some (env.usdValue e.blockTimestamp e.blockNumber),
      fromAccount := fromAccount.id, blockNumber := e.blockNumber,
      blockTimestamp := e.blockTimestamp, transactionHash := e.txHash }
  let store := saveBid store bid
  let evntId := getGlobalId e.txHash e.logIndex
  let evnt : Event :=
    { id := evntId, transactionHash := e.txHash, type := "BidEntered",
      tokenId := e.punkIndex, fromAccount := some fromAccount.id,
      toAccount := some ZERO_ADDRESS, value := e.value,
      usd := some (env.usdValue e.blockTimestamp e.blockNumber),
      blockNumber := e.blockNumber, blockTimestamp := e.blockTimestamp }
  let store := saveEvent store evnt
  let state := getOrCreateState env store e.blockTimestamp
  let prevBidEvent := loadPrevBidEvent store state.topBid
  let state :=
    match prevBidEvent with
    | some pe =>
      if 0 < pe.value then
        if pe.value < e.value then { state with topBid := some evntId }
        else state
      else { state with topBid := some evntId }
    | none => { state with topBid := some evntId }
  let state :=
    { state with usd := some (env.usdValue e.blockTimestamp e.blockNumber),
                 bids := state.bids + 1 }
  saveState store state

/-- crypto-punks-market.ts handlePunkBought: zero-address-buyer fallback
to the existing bid, listing/bid closing, ownership transfer, the
zero-value-no-bid early return, Sale event, top-sale update, counters,
active-listing removal and floor recompute. -/
def handlePunkBought (env : Env) (store : Store) (e : PunkBoughtEvent) :
    Store :=
  let punkBoughtTokenId := toString e.punkIndex
  -- isWash is computed in the source and never used afterwards
  let _isWash := env.washTrades.contains e.txHash
  let r1 := getOrCreateAccount store e.fromAddress
  let fromAccount := r1.1
  let r2 := getOrCreateAccount r1.2 e.toAddress
  let toAccount := r2.1
  let store := r2.2
  let value := e.value
  let bid := store.bids punkBoughtTokenId
  let resolved :=
    if toAccount.id = ZERO_ADDRESS then
      match bid with
      | some b =>
        let r3 := getOrCreateAccount store b.fromAccount
        (r3.1, b.value, setPunkNoLongerForSale r3.2 punkBoughtTokenId true)
      | none =>
        (toAccount, value, setPunkNoLongerForSale store punkBoughtTokenId true)
    else
      match bid with
      | some b =>
        if b.fromAccount.toLower = toAccount.id.toLower then
          (toAccount, value, setPunkNoLongerForSale store punkBoughtTokenId true)
        else (toAccount, value, setPunkNoLongerForSale store punkBoughtTokenId false)
      | none =>
        (toAccount, value, setPunkNoLongerForSale store punkBoughtTokenId false)
  let toAccount := resolved.1
  let value := resolved.2.1
  let store := resolved.2.2
  let store :=
    updateOwnership env store e.txHash e.blockTimestamp punkBoughtTokenId
      toAccount.id fromAccount.id
  -- `if (!bid && value.equals(BIGINT_ZERO)) return;`
  if bid.isNone ∧ value = 0 then store
  else
    let evntId := getGlobalId e.txHash e.logIndex
    let evnt : Event :=
      { id := evntId, transactionHash := e.txHash, type := "Sale",
        tokenId := e.punkIndex, fromAccount := some fromAccount.id,
        toAccount := some toAccount.id, value := value,
        usd := some (env.usdValue e.blockTimestamp e.blockNumber),
        blockNumber := e.blockNumber, blockTimestamp := e.blockTimestamp }
    let store := saveEvent store evnt
    let state := getOrCreateState env store e.blockTimestamp
    let prevSaleEvent := loadPrevSaleEvent store state.topSale
    let state :=
      match prevSaleEvent with
      | some pe =>
        if 0 < pe.value then
          if pe.value < value then { state with topSale := some evntId }
          else state
        else { state with topSale := some evntId }
      | none => { state with topSale := some evntId }
    let newActiveListings :=
      if state.activeListings.contains punkBoughtTokenId then
        state.activeListings.filter (fun id => id ≠ punkBoughtTokenId)
      else state.activeListings
    let state := { state with activeListings := newActiveListings }
    let state :=
      { state with floor := getFloorFromActiveListings env store state,
                   sales := state.sales + 1, volume := state.volume + value,
                   usd := some (env.usdValue e.blockTimestamp e.blockNumber) }
    saveState store state

/-- crypto-punks-market.ts handlePunkNoLongerForSale: close the listing;
when no raw Transfer shares the transaction it is a withdrawal
(OfferWithdrawn event + delistings counter); in all cases remove the id
from activeListings and recompute the floor. The source assigns
transfer.tokenId without calling transfer.save(), so that mutation is
not persisted. -/
def handlePunkNoLongerForSale (env : Env) (store : Store)
    (e : PunkNoLongerForSaleEvent) : Store :=
  let punkNoLongerForSaleTokenId := toString e.punkIndex
  let store := setPunkNoLongerForSale store punkNoLongerForSaleTokenId false
  let isBuy := (store.transfers e.txHash).isSome
  let state := getOrCreateState env store e.blockTimestamp
  let r :=
    if !isBuy then
      let evntId := getGlobalId e.txHash e.logIndex
      let evnt : Event :=
        { id := evntId, transactionHash := e.txHash,
          type := "OfferWithdrawn", tokenId := e.punkIndex,
          fromAccount := some ZERO_ADDRESS, toAccount := some ZERO_ADDRESS,
          value := 0,
          usd := some (env.usdValue e.blockTimestamp e.blockNumber),
          blockNumber := e.blockNumber, blockTimestamp := e.blockTimestamp }
      ({ state with delistings := state.delistings + 1 }, saveEvent store evnt)
    else (state, store)
  let state := r.1
  let store := r.2
  let newActiveListings :=
    if state.activeListings.contains punkNoLongerForSaleTokenId then
      state.activeListings.filter (fun id => id ≠ punkNoLongerForSaleTokenId)
    else state.activeListings
  let state := { state with activeListings := newActiveListings }
  let state :=
    { state with floor := getFloorFromActiveListings env store state,
                 usd := some (env.usdValue e.blockTimestamp e.blockNumber) }
  saveState store state

/-! ### Characterization helpers for the floor engine and the lookback
search (used only to state and prove properties; the executable
definitions above are the embedding of the source). -/

/-- The strictly-positive values of the still-existing listings
referenced by an id collection, in order. -/
def posVals (store : Store) (xs : List String) : List Int :=
  xs.filterMap (fun lid =>
    match store.listings lid with
    | some l => if 0 < l.value then some l.value else none
    | none => none)

/-- Minimum of two optional values, treating `none` as neutral. -/
def optMin : Option Int → Option Int → Option Int
  | none, b => b
  | some a, none => some a
  | some a, some b => some (min a b)

/-- Minimum of a list of values, `none` on the empty list. -/
def listMin : List Int → Option Int
  | [] => none
  | v :: vs => optMin (some v) (listMin vs)

theorem optMin_none_right (a : Option Int) : optMin a none = a := by
  cases a <;> rfl

theorem optMin_assoc (a b c : Option Int) :
    optMin (optMin a b) c = optMin a (optMin b c) := by
  cases a <;> cases b <;> cases c <;> simp [optMin, min_assoc]

theorem floorLoop_eq (store : Store) :
    ∀ (xs : List String) (acc : Option Int),
      floorLoop store xs acc = optMin acc (listMin (posVals store xs)) := by
  intro xs
  induction xs with
  | nil => intro acc; simp [floorLoop, posVals, listMin, optMin_none_right]
  | cons lid rest ih =>
    intro acc
    show floorLoop store (lid :: rest) acc = _
    rw [floorLoop]
    rcases hl : store.listings lid with _ | l
    · simpa [posVals, hl] using ih acc
    · by_cases hv : 0 < l.value
      · have hstep :
            (match acc with
             | none => some l.value
             | some f => if l.value < f then some l.value else some f) =
              optMin acc (some l.value) := by
          cases acc with
          | none => rfl
          | some f =>
            by_cases h : l.value < f
            · simp [optMin, h, min_eq_right (le_of_lt h)]
            · simp [optMin, h, min_eq_left (le_of_not_lt h)]
        simp only [hl, hv, if_true, hstep, ih]
        have hp : posVals store (lid :: rest) = l.value :: posVals store rest := by
          simp [posVals, hl, hv]
        rw [hp, listMin, ← optMin_assoc]
      · have hp : posVals store (lid :: rest) = posVals store rest := by
          simp [posVals, hl, hv]
        simp only [hl, hv, if_false, hp, ih]

theorem listMin_eq_none (vs : List Int) : listMin vs = none ↔ vs = [] := by
  cases vs with
  | nil => simp [listMin]
  | cons v rest =>
    simp only [listMin]
    cases listMin rest <;> simp [optMin]

theorem listMin_spec :
    ∀ (vs : List Int) (m : Int), listMin vs = some m →
      m ∈ vs ∧ ∀ v ∈ vs, m ≤ v := by
  intro vs
  induction vs with
  | nil => intro m h; simp [listMin] at h
  | cons v rest ih =>
    intro m h
    rw [listMin] at h
    rcases hr : listMin rest with _ | m2
    · rw [hr, optMin_none_right] at h
      injection h with h
      subst h
      have hrest : rest = [] := (listMin_eq_none rest).mp hr
      subst hrest
      exact ⟨by simp, by simp⟩
    · rw [hr] at h
      have hm2 := ih m2 hr
      simp only [optMin] at h
      injection h with h
      subst h
      constructor
      · rcases le_total v m2 with hle | hle
        · simp [min_eq_left hle]
        · exact List.mem_cons_of_mem _ (by
            rw [min_eq_right hle]; exact hm2.1)
      · intro w hw
        rcases List.mem_cons.mp hw with h1 | h1
        · rw [h1]; exact min_le_left _ _
        · exact le_trans (min_le_right _ _) (hm2.2 w h1)

/-- The floor routine, rephrased through `listMin`/`posVals`. -/
theorem getFloor_eq (env : Env) (store : Store) (st : State) :
    getFloorFromActiveListings env store st =
      if st.activeListings.length < 5 then
        (match store.states (env.timestampToId (toI32 st.timestamp) 1) with
         | some p => p.floor
         | none => 0)
      else
        (match listMin (posVals store st.activeListings) with
         | some m => m
         | none => 0) := by
  rw [getFloorFromActiveListings]
  by_cases h : st.activeListings.length < 5
  · simp [h]
  · simp only [h, if_false, floorLoop_eq]
    rfl

theorem stateLookback_none (env : Env) (store : Store) (ts : Int) :
    ∀ (fuel i : Nat),
      (∀ k, i ≤ k → k < i + fuel →
        store.states (env.timestampToId ts k) = none) →
      stateLookback env store ts i fuel = none := by
  intro fuel
  induction fuel with
  | zero => intro i _; rfl
  | succ n ih =>
    intro i h
    rw [stateLookback]
    have h0 : store.states (env.timestampToId ts i) = none :=
      h i (Nat.le_refl i) (by omega)
    rw [h0]
    exact ih (i + 1) (fun k hk1 hk2 => h k (by omega) (by omega))

theorem stateLookback_found (env : Env) (store : Store) (ts : Int) :
    ∀ (fuel i k : Nat) (p : State), i ≤ k → k < i + fuel →
      store.states (env.timestampToId ts k) = some p →
      (∀ j, i ≤ j → j < k → store.states (env.timestampToId ts j) = none) →
      stateLookback env store ts i fuel = some p := by
  intro fuel
  induction fuel with
  | zero => intro i k p h1 h2 _ _; omega
  | succ n ih =>
    intro i k p h1 h2 hk hmin
    rw [stateLookback]
    by_cases hik : k = i
    · subst hik; rw [hk]
    · have h0 : store.states (env.timestampToId ts i) = none :=
        hmin i (Nat.le_refl i) (by omega)
      rw [h0]
      exact ih (i + 1) k p (by omega) (by omega) hk
        (fun j hj1 hj2 => hmin j (by omega) hj2)

theorem floorLoop_congr (s1 s2 : Store)
    (h : ∀ k, s1.listings k = s2.listings k) :
    ∀ (xs : List String) (acc : Option Int),
      floorLoop s1 xs acc = floorLoop s2 xs acc := by
  intro xs
  induction xs with
  | nil => intro acc; rfl
  | cons lid rest ih =>
    intro acc
    rw [floorLoop, floorLoop, h lid]
    exact ih _

/-- The floor routine only depends on the listings map, the predecessor
snapshot, the active-listing collection and the timestamp. -/
theorem getFloor_congr (env : Env) (s1 s2 : Store) (a b : State)
    (hl : ∀ k, s1.listings k = s2.listings k)
    (hts : a.timestamp = b.timestamp)
    (hal : a.activeListings = b.activeListings)
    (hst : s1.states (env.timestampToId (toI32 a.timestamp) 1) =
      s2.states (env.timestampToId (toI32 b.timestamp) 1)) :
    getFloorFromActiveListings env s1 a = getFloorFromActiveListings env s2 b := by
  rw [getFloorFromActiveListings, getFloorFromActiveListings]
  rw [hts] at hst
  rw [hts, hal, hst, floorLoop_congr s1 s2 hl]

/-- The top-rank replacement rule as stated by the spec: when no top
event is on record or its stored value is not strictly positive, the
candidate wins unconditionally; otherwise the candidate wins exactly
when its value is strictly greater (ties keep the current top). -/
def topRankSpec (candId : String) (candVal : Int) (cur : Option String)
    (curEv : Option Event) : Option String :=
  match curEv with
  | none => some candId
  | some pe =>
    if 0 < pe.value then
      if pe.value < candVal then some candId else cur
    else some candId

/-! ### Store-effect toolkit: which maps each operation touches, and
id-coherence of looked-up accounts. -/

/-- The account stored at key `k`, if any, carries `k` as its own id
(graph-node guarantees this; stores built by the handlers preserve it). -/
def accountIdOk (store : Store) (k : String) : Bool :=
  match store.accounts k with
  | some a => a.id == k
  | none => true

/-- The held set of the account at `k` (empty when absent). -/
def heldPunks (store : Store) (k : String) : List String :=
  match store.accounts k with
  | some a => a.punks
  | none => []

theorem getOrCreateAccount_fst_id (store : Store) (k : String)
    (h : accountIdOk store k = true) :
    (getOrCreateAccount store k).1.id = k := by
  rcases ha : store.accounts k with _ | a
  · simp [getOrCreateAccount, ha]
  · rw [accountIdOk, ha] at h
    simpa [getOrCreateAccount, ha] using of_decide_eq_true (by simpa using h)

theorem getOrCreateAccount_fst_punks (store : Store) (k : String) :
    (getOrCreateAccount store k).1.punks = heldPunks store k := by
  rcases ha : store.accounts k <;> simp [getOrCreateAccount, heldPunks, ha]

theorem getOrCreateAccount_punks (store : Store) (k : String) :
    (getOrCreateAccount store k).2.punks = store.punks := by
  rcases ha : store.accounts k <;> simp [getOrCreateAccount, saveAccount, ha]

theorem getOrCreateAccount_listings (store : Store) (k : String) :
    (getOrCreateAccount store k).2.listings = store.listings := by
  rcases ha : store.accounts k <;> simp [getOrCreateAccount, saveAccount, ha]

theorem getOrCreateAccount_bids (store : Store) (k : String) :
    (getOrCreateAccount store k).2.bids = store.bids := by
  rcases ha : store.accounts k <;> simp [getOrCreateAccount, saveAccount, ha]

theorem getOrCreateAccount_events (store : Store) (k : String) :
    (getOrCreateAccount store k).2.events = store.events := by
  rcases ha : store.accounts k <;> simp [getOrCreateAccount, saveAccount, ha]

theorem getOrCreateAccount_states (store : Store) (k : String) :
    (getOrCreateAccount store k).2.states = store.states := by
  rcases ha : store.accounts k <;> simp [getOrCreateAccount, saveAccount, ha]

theorem getOrCreateAccount_transfers (store : Store) (k : String) :
    (getOrCreateAccount store k).2.transfers = store.transfers := by
  rcases ha : store.accounts k <;> simp [getOrCreateAccount, saveAccount, ha]

theorem accountIdOk_getOrCreate (store : Store) (j k : String)
    (h : accountIdOk store k = true) :
    accountIdOk (getOrCreateAccount store j).2 k = true := by
  rcases ha : store.accounts j with _ | a
  · simp only [getOrCreateAccount, ha, accountIdOk, saveAccount, upd]
    by_cases hk : k = j
    · subst hk; simp
    · simp only [if_neg hk]
      rw [accountIdOk] at h
      exact h
  · simpa [getOrCreateAccount, ha] using h

theorem heldPunks_getOrCreate (store : Store) (j k : String) :
    heldPunks (getOrCreateAccount store j).2 k = heldPunks store k := by
  rcases ha : store.accounts j with _ | a
  · simp only [getOrCreateAccount, ha, heldPunks, saveAccount, upd]
    by_cases hk : k = j
    · subst hk; simp [ha]
    · simp [if_neg hk]
  · simp [getOrCreateAccount, ha]

theorem getOrCreatePunk_accounts (store : Store) (k : String) :
    (getOrCreatePunk store k).2.accounts = store.accounts := by
  rcases hp : store.punks k <;> simp [getOrCreatePunk, savePunk, hp]

theorem getOrCreatePunk_listings (store : Store) (k : String) :
    (getOrCreatePunk store k).2.listings = store.listings := by
  rcases hp : store.punks k <;> simp [getOrCreatePunk, savePunk, hp]

theorem getOrCreatePunk_bids (store : Store) (k : String) :
    (getOrCreatePunk store k).2.bids = store.bids := by
  rcases hp : store.punks k <;> simp [getOrCreatePunk, savePunk, hp]

theorem getOrCreatePunk_events (store : Store) (k : String) :
    (getOrCreatePunk store k).2.events = store.events := by
  rcases hp : store.punks k <;> simp [getOrCreatePunk, savePunk, hp]

theorem getOrCreatePunk_states (store : Store) (k : String) :
    (getOrCreatePunk store k).2.states = store.states := by
  rcases hp : store.punks k <;> simp [getOrCreatePunk, savePunk, hp]

theorem getOrCreatePunk_transfers (store : Store) (k : String) :
    (getOrCreatePunk store k).2.transfers = store.transfers := by
  rcases hp : store.punks k <;> simp [getOrCreatePunk, savePunk, hp]

theorem setPunkNoLongerForSale_accounts (store : Store) (k : String)
    (rb : Bool) :
    (setPunkNoLongerForSale store k rb).accounts = store.accounts := by
  rcases hl : store.listings k <;> rcases rb <;>
    simp [setPunkNoLongerForSale, hl] <;> rcases store.bids k <;> simp

theorem setPunkNoLongerForSale_punks (store : Store) (k : String)
    (rb : Bool) :
    (setPunkNoLongerForSale store k rb).punks = store.punks := by
  rcases hl : store.listings k <;> rcases rb <;>
    simp [setPunkNoLongerForSale, hl] <;> rcases store.bids k <;> simp

theorem setPunkNoLongerForSale_events (store : Store) (k : String)
    (rb : Bool) :
    (setPunkNoLongerForSale store k rb).events = store.events := by
  rcases hl : store.listings k <;> rcases rb <;>
    simp [setPunkNoLongerForSale, hl] <;> rcases store.bids k <;> simp

theorem setPunkNoLongerForSale_states (store : Store) (k : String)
    (rb : Bool) :
    (setPunkNoLongerForSale store k rb).states = store.states := by
  rcases hl : store.listings k <;> rcases rb <;>
    simp [setPunkNoLongerForSale, hl] <;> rcases store.bids k <;> simp

theorem setPunkNoLongerForSale_transfers (store : Store) (k : String)
    (rb : Bool) :
    (setPunkNoLongerForSale store k rb).transfers = store.transfers := by
  rcases hl : store.listings k <;> rcases rb <;>
    simp [setPunkNoLongerForSale, hl] <;> rcases store.bids k <;> simp

theorem upd_self_none {α : Type} (m : String → Option α) (k : String)
    (h : m k = none) : upd m k none = m := by
  funext q
  rw [upd]
  by_cases hq : q = k
  · subst hq; simp [h]
  · simp [hq]

theorem setPunkNoLongerForSale_listings (store : Store) (k : String)
    (rb : Bool) :
    (setPunkNoLongerForSale store k rb).listings = upd store.listings k none := by
  rcases hl : store.listings k with _ | l
  · have h := (upd_self_none store.listings k hl).symm
    rcases rb
    · simpa [setPunkNoLongerForSale, hl] using h
    · simp only [setPunkNoLongerForSale, hl]
      rcases hb : store.bids k <;> simpa [hb] using h
  · rcases rb
    · simp [setPunkNoLongerForSale, hl]
    · simp only [setPunkNoLongerForSale, hl]
      rcases hb : store.bids k <;> simp [hb]

theorem setPunkNoLongerForSale_bids_true (store : Store) (k : String) :
    (setPunkNoLongerForSale store k true).bids = upd store.bids k none := by
  rcases hl : store.listings k with _ | l <;>
    simp only [setPunkNoLongerForSale, hl] <;>
    rcases hb : store.bids k with _ | b <;>
    simp [hb, upd_self_none store.bids k]

theorem setPunkNoLongerForSale_bids_false (store : Store) (k : String) :
    (setPunkNoLongerForSale store k false).bids = store.bids := by
  rcases hl : store.listings k <;> simp [setPunkNoLongerForSale, hl]

theorem updateOwnership_events (env : Env) (store : Store) (tx : String)
    (ts : Int) (punkId toA fromA : String) :
    (updateOwnership env store tx ts punkId toA fromA).events =
      store.events := by
  simp only [updateOwnership, saveState, saveAccount, savePunk,
    getOrCreatePunk_events, getOrCreateAccount_events]

theorem updateOwnership_listings (env : Env) (store : Store) (tx : String)
    (ts : Int) (punkId toA fromA : String) :
    (updateOwnership env store tx ts punkId toA fromA).listings =
      store.listings := by
  simp only [updateOwnership, saveState, saveAccount, savePunk,
    getOrCreatePunk_listings, getOrCreateAccount_listings]

theorem updateOwnership_bids (env : Env) (store : Store) (tx : String)
    (ts : Int) (punkId toA fromA : String) :
    (updateOwnership env store tx ts punkId toA fromA).bids =
      store.bids := by
  simp only [updateOwnership, saveState, saveAccount, savePunk,
    getOrCreatePunk_bids, getOrCreateAccount_bids]

theorem updateOwnership_transfers (env : Env) (store : Store) (tx : String)
    (ts : Int) (punkId toA fromA : String) :
    (updateOwnership env store tx ts punkId toA fromA).transfers =
      store.transfers := by
  simp only [updateOwnership, saveState, saveAccount, savePunk,
    getOrCreatePunk_transfers, getOrCreateAccount_transfers]

/-- getOrCreateState returns the stored snapshot when the bucket already
has one. -/
theorem getOrCreateState_some (env : Env) (store : Store) (ts : Int)
    (s : State) (h : store.states (env.timestampToId (toI32 ts) 0) = some s) :
    getOrCreateState env store ts = s := by
  simp only [getOrCreateState, h]

/-- The snapshot effect of updateOwnership: the bucket's snapshot has
its owners counter decremented when the sender's held set has exactly
one element before the removal, and incremented when the receiver's
held set was empty before the addition. -/
theorem updateOwnership_states (env : Env) (store : Store) (tx : String)
    (ts : Int) (punkId toA fromA : String) (s : State)
    (hs : store.states (env.timestampToId (toI32 ts) 0) = some s) :
    (updateOwnership env store tx ts punkId toA fromA).states =
      upd store.states s.id
        (some { s with owners :=
          (if (heldPunks store fromA).length = 1 then s.owners - 1
           else s.owners) +
          (if (heldPunks store toA).length = 0 then 1 else 0) }) := by
  have h1 := getOrCreateAccount_states store toA
  have h2 := getOrCreateAccount_states (getOrCreateAccount store toA).2 fromA
  have hst :
      (getOrCreateAccount (getOrCreateAccount store toA).2 fromA).2.states
        (env.timestampToId (toI32 ts) 0) = some s := by
    rw [h2, h1, hs]
  have hgs := getOrCreateState_some env _ ts s hst
  simp only [updateOwnership, hgs, saveState, saveAccount, savePunk,
    getOrCreateAccount_fst_punks, heldPunks_getOrCreate,
    getOrCreatePunk_states, getOrCreateAccount_states]
  by_cases c2 : (heldPunks store toA).length = 0 <;>
    by_cases c1 : (heldPunks store fromA).length = 1 <;>
    simp [c1, c2]

/-- The receiver-account effect of updateOwnership: the transferred id is
appended (pushed) onto the receiver's held set. -/
theorem updateOwnership_accounts_to (env : Env) (store : Store)
    (tx : String) (ts : Int) (punkId toA fromA : String)
    (hok : accountIdOk store toA = true) :
    (updateOwnership env store tx ts punkId toA fromA).accounts toA =
      some { id := toA, punks := heldPunks store toA ++ [punkId] } := by
  have hid := getOrCreateAccount_fst_id store toA hok
  have hp := getOrCreateAccount_fst_punks store toA
  simp only [updateOwnership, saveState, saveAccount, savePunk,
    getOrCreatePunk_accounts, upd, hid, hp]
  simp

/-- The top-bid effect of handlePunkBidEntered: the snapshot's topBid is
updated by the top-rank rule against the previously referenced bid
event, and the bids counter is bumped. -/
theorem handlePunkBidEntered_topBid (env : Env) (store : Store)
    (e : PunkBidEnteredEvent) (s : State)
    (hs : store.states (env.timestampToId (toI32 e.blockTimestamp) 0) = some s)
    (hsid : s.id = env.timestampToId (toI32 e.blockTimestamp) 0)
    (htid : ∀ tid, s.topBid = some tid → tid ≠ getGlobalId e.txHash e.logIndex) :
    ∃ s2, (handlePunkBidEntered env store e).states
        (env.timestampToId (toI32 e.blockTimestamp) 0) = some s2 ∧
      s2.bids = s.bids + 1 ∧
      s2.topBid = topRankSpec (getGlobalId e.txHash e.logIndex) e.value
        s.topBid (loadPrevBidEvent store s.topBid) := by
  rcases hts : s.topBid with _ | tid
  · simp only [handlePunkBidEntered, saveBid, saveEvent, saveState,
      getOrCreateState, getOrCreateAccount_states, getOrCreateAccount_events,
      hs, hts, loadPrevBidEvent, topRankSpec]
    rw [upd]
    rw [← hsid, if_pos rfl]
    exact ⟨_, rfl, by simp, by simp⟩
  · have hne := htid tid hts
    rcases hev : store.events tid with _ | pe
    · simp only [handlePunkBidEntered, saveBid, saveEvent, saveState,
        getOrCreateState, getOrCreateAccount_states, getOrCreateAccount_events,
        hs, hts, loadPrevBidEvent, topRankSpec, upd, if_neg hne, hev]
      rw [← hsid, if_pos rfl]
      exact ⟨_, rfl, by simp, by simp⟩
    · by_cases hv : 0 < pe.value
      · by_cases hlt : pe.value < e.value
        · simp only [handlePunkBidEntered, saveBid, saveEvent, saveState,
            getOrCreateState, getOrCreateAccount_states,
            getOrCreateAccount_events, hs, hts, loadPrevBidEvent, topRankSpec,
            upd, if_neg hne, hev, if_pos hv, if_pos hlt]
          rw [← hsid, if_pos rfl]
          exact ⟨_, rfl, by simp, by simp⟩
        · simp only [handlePunkBidEntered, saveBid, saveEvent, saveState,
            getOrCreateState, getOrCreateAccount_states,
            getOrCreateAccount_events, hs, hts, loadPrevBidEvent, topRankSpec,
            upd, if_neg hne, hev, if_pos hv, if_neg hlt]
          rw [← hsid, if_pos rfl]
          exact ⟨_, rfl, by simp, by simp [hts]⟩
      · simp only [handlePunkBidEntered, saveBid, saveEvent, saveState,
          getOrCreateState, getOrCreateAccount_states,
          getOrCreateAccount_events, hs, hts, loadPrevBidEvent, topRankSpec,
          upd, if_neg hne, hev, if_neg hv]
        rw [← hsid, if_pos rfl]
        exact ⟨_, rfl, by simp, by simp⟩

/-- The top-sale effect of handlePunkBought (for a sale with a nonzero
reported buyer, no bid on record, and nonzero value): the snapshot's
topSale is updated by the top-rank rule against the previously
referenced sale event, and the sales counter is bumped. -/
theorem handlePunkBought_topSale (env : Env) (store : Store)
    (e : PunkBoughtEvent) (s : State)
    (hs : store.states (env.timestampToId (toI32 e.blockTimestamp) 0) = some s)
    (hsid : s.id = env.timestampToId (toI32 e.blockTimestamp) 0)
    (hok : accountIdOk store e.toAddress = true)
    (hzero : e.toAddress ≠ ZERO_ADDRESS)
    (hbid : store.bids (toString e.punkIndex) = none)
    (hval : ¬ e.value = 0)
    (htid : ∀ tid, s.topSale = some tid →
      tid ≠ getGlobalId e.txHash e.logIndex) :
    ∃ s2, (handlePunkBought env store e).states
        (env.timestampToId (toI32 e.blockTimestamp) 0) = some s2 ∧
      s2.sales = s.sales + 1 ∧
      s2.topSale = topRankSpec (getGlobalId e.txHash e.logIndex) e.value
        s.topSale (loadPrevSaleEvent store s.topSale) := by
  have hok1 := accountIdOk_getOrCreate store e.fromAddress e.toAddress hok
  have hid := getOrCreateAccount_fst_id _ e.toAddress hok1
  have hbid2 : (getOrCreateAccount (getOrCreateAccount store e.fromAddress).2
      e.toAddress).2.bids (toString e.punkIndex) = none := by
    rw [getOrCreateAccount_bids, getOrCreateAccount_bids, hbid]
  have hs3 : (setPunkNoLongerForSale
      (getOrCreateAccount (getOrCreateAccount store e.fromAddress).2
        e.toAddress).2 (toString e.punkIndex) false).states
      (env.timestampToId (toI32 e.blockTimestamp) 0) = some s := by
    rw [setPunkNoLongerForSale_states, getOrCreateAccount_states,
      getOrCreateAccount_states, hs]
  have hupdS := updateOwnership_states env _ e.txHash e.blockTimestamp
    (toString e.punkIndex) e.toAddress
    (getOrCreateAccount store e.fromAddress).1.id s hs3
  have hupdE := updateOwnership_events env
    (setPunkNoLongerForSale
      (getOrCreateAccount (getOrCreateAccount store e.fromAddress).2
        e.toAddress).2 (toString e.punkIndex) false)
    e.txHash e.blockTimestamp (toString e.punkIndex) e.toAddress
    (getOrCreateAccount store e.fromAddress).1.id
  rcases hts : s.topSale with _ | tid
  · simp only [handlePunkBought, hbid2, hid, if_neg hzero, Option.isNone_none,
      true_and, if_neg hval, saveEvent, saveState, getOrCreateState, hupdS,
      hupdE, setPunkNoLongerForSale_events, getOrCreateAccount_events, upd,
      hts, loadPrevSaleEvent, topRankSpec, ← hsid, eq_self_iff_true, ite_true]
    exact ⟨_, rfl, by simp, by simp⟩
  · have hne := htid tid hts
    rcases hev : store.events tid with _ | pe
    · simp only [handlePunkBought, hbid2, hid, if_neg hzero,
        Option.isNone_none, true_and, if_neg hval, saveEvent, saveState,
        getOrCreateState, hupdS, hupdE, setPunkNoLongerForSale_events,
        getOrCreateAccount_events, upd, hts, loadPrevSaleEvent, topRankSpec,
        if_neg hne, hev, ← hsid, eq_self_iff_true, ite_true]
      exact ⟨_, rfl, by simp, by simp⟩
    · by_cases hv : 0 < pe.value
      · by_cases hlt : pe.value < e.value
        · simp only [handlePunkBought, hbid2, hid, if_neg hzero,
            Option.isNone_none, true_and, if_neg hval, saveEvent, saveState,
            getOrCreateState, hupdS, hupdE, setPunkNoLongerForSale_events,
            getOrCreateAccount_events, upd, hts, loadPrevSaleEvent,
            topRankSpec, if_neg hne, hev, if_pos hv, if_pos hlt, ← hsid, eq_self_iff_true, ite_true]
          exact ⟨_, rfl, by simp, by simp⟩
        · simp only [handlePunkBought, hbid2, hid, if_neg hzero,
            Option.isNone_none, true_and, if_neg hval, saveEvent, saveState,
            getOrCreateState, hupdS, hupdE, setPunkNoLongerForSale_events,
            getOrCreateAccount_events, upd, hts, loadPrevSaleEvent,
            topRankSpec, if_neg hne, hev, if_pos hv, if_neg hlt, ← hsid, eq_self_iff_true, ite_true]
          exact ⟨_, rfl, by simp, by simp [hts]⟩
      · simp only [handlePunkBought, hbid2, hid, if_neg hzero,
          Option.isNone_none, true_and, if_neg hval, saveEvent, saveState,
          getOrCreateState, hupdS, hupdE, setPunkNoLongerForSale_events,
          getOrCreateAccount_events, upd, hts, loadPrevSaleEvent, topRankSpec,
          if_neg hne, hev, if_neg hv, ← hsid, eq_self_iff_true, ite_true]
        exact ⟨_, rfl, by simp, by simp⟩

/-! ### Concrete instances used to evaluate the theorems on explicit
inputs. -/

/-- A concrete environment: bucket ids are "B0", "B1", ... by lookback. -/
def envW : Env :=
  { timestampToId := fun _ i => "B" ++ toString i,
    usdValue := fun _ _ => 0,
    washTrades := [],
    wrapperAddress := "0xwrap" }

/-- A concrete public listing with the given id and ask value. -/
def mkListing (id : String) (v : Int) : Listing :=
  { id := id, punk := id, value := v, usd := none, fromAccount := "0xs",
    toAccount := ZERO_ADDRESS, isPrivate := false, blockNumber := 0,
    blockTimestamp := 0, transactionHash := "0xt" }

/-- A snapshot for the predecessor bucket "B1": floor 7, 3 owners, one
carried active listing. -/
def stB1 : State :=
  { id := "B1", timestamp := 0, floor := 7, volume := 0, topBid := none,
    bids := 0, topSale := none, sales := 0, owners := 3,
    activeListings := ["9"], listings := 0, delistings := 0, usd := none }

/-- A concrete store: five listings with values 100, 0, 50, 200, 80 and
the predecessor snapshot `stB1`. -/
def storeW : Store :=
  { accounts := fun _ => none,
    punks := fun _ => none,
    listings := fun k =>
      if k = "1" then some (mkListing "1" 100)
      else if k = "2" then some (mkListing "2" 0)
      else if k = "3" then some (mkListing "3" 50)
      else if k = "4" then some (mkListing "4" 200)
      else if k = "5" then some (mkListing "5" 80)
      else none,
    bids := fun _ => none,
    events := fun _ => none,
    states := fun k => if k = "B1" then some stB1 else none,
    transfers := fun _ => none }

/-- A current snapshot with exactly five active-listing entries. -/
def stW5 : State :=
  { id := "B0", timestamp := 100, floor := 999, volume := 0, topBid := none,
    bids := 0, topSale := none, sales := 0, owners := 0,
    activeListings := ["1", "2", "3", "4", "5"], listings := 0,
    delistings := 0, usd := none }

/-- The same snapshot with exactly four active-listing entries. -/
def stW4 : State := { stW5 with activeListings := ["1", "2", "3", "4"] }

/-- An existing current-bucket snapshot with floor 100. -/
def stC3 : State :=
  { id := "B0", timestamp := 100, floor := 100, volume := 0, topBid := none,
    bids := 0, topSale := none, sales := 0, owners := 0, activeListings := [],
    listings := 0, delistings := 0, usd := none }

/-- A store holding only the current-bucket snapshot `stC3`. -/
def storeC3 : Store :=
  { accounts := fun _ => none, punks := fun _ => none,
    listings := fun _ => none, bids := fun _ => none,
    events := fun _ => none,
    states := fun k => if k = "B0" then some stC3 else none,
    transfers := fun _ => none }

/-- A public offer (toAddress is the zero address): punk 7 for 40,
below the current floor 100. -/
def evC3 : PunkOfferedEvent :=
  { punkIndex := 7, minValue := 40, toAddress := ZERO_ADDRESS,
    txHash := "0xh", logIndex := 1, blockNumber := 5, blockTimestamp := 100,
    txFrom := "0xseller" }

/-- The same offer restricted to a specific buyer (private). -/
def evC3p : PunkOfferedEvent := { evC3 with toAddress := "0xbuyer" }

/-- The snapshot effect of handlePunkOffered: listings counter bumped,
token id appended to activeListings, and the floor overwritten with the
offer value exactly when the offer is restricted (toAddress nonzero),
nonzero and strictly below the current floor. -/
theorem handlePunkOffered_states (env : Env) (store : Store)
    (e : PunkOfferedEvent) (s : State)
    (hs : store.states (env.timestampToId (toI32 e.blockTimestamp) 0) = some s)
    (hok : accountIdOk store e.toAddress = true) :
    (handlePunkOffered env store e).states =
      upd store.states s.id
        (some { s with
          listings := s.listings + 1,
          activeListings := s.activeListings ++ [toString e.punkIndex],
          floor :=
            if e.toAddress ≠ ZERO_ADDRESS ∧ e.minValue ≠ 0 ∧ e.minValue < s.floor
            then e.minValue else s.floor,
          usd := some (env.usdValue e.blockTimestamp e.blockNumber) }) := by
  have hok1 := accountIdOk_getOrCreate store e.txFrom e.toAddress hok
  have hid := getOrCreateAccount_fst_id _ e.toAddress hok1
  simp only [handlePunkOffered, saveListing, saveEvent, saveState,
    getOrCreateState, getOrCreateAccount_states, hs, hid]
  by_cases hc : e.toAddress ≠ ZERO_ADDRESS ∧ e.minValue ≠ 0 ∧ e.minValue < s.floor <;>
    simp [hc]

/-! ### Claims -/

/-- C1: `getFloorFromActiveListings` returns the immediately preceding
bucket's floor (lookback exactly one, zero when that snapshot is
absent) whenever the active-listing collection has fewer than 5
entries; otherwise it returns the minimum strictly-positive value among
the still-existing listings referenced by the collection (an element of
those positive values that bounds them all from below), and zero when
no positive-valued listing exists. -/
theorem c1_floor_recompute (env : Env) (store : Store) (st : State) :
    (st.activeListings.length < 5 →
      getFloorFromActiveListings env store st =
        (match store.states (env.timestampToId (toI32 st.timestamp) 1) with
         | some p => p.floor
         | none => 0)) ∧
    (¬ st.activeListings.length < 5 →
      (posVals store st.activeListings = [] →
        getFloorFromActiveListings env store st = 0) ∧
      (posVals store st.activeListings ≠ [] →
        getFloorFromActiveListings env store st ∈ posVals store st.activeListings ∧
        ∀ v ∈ posVals store st.activeListings,
          getFloorFromActiveListings env store st ≤ v)) := by
  have he := getFloor_eq env store st
  constructor
  · intro h
    rw [he, if_pos h]
  · intro h
    rw [if_neg h] at he
    rcases hlm : listMin (posVals store st.activeListings) with _ | m
    · rw [hlm] at he
      refine ⟨fun _ => he, fun hne => absurd ((listMin_eq_none _).mp hlm) hne⟩
    · rw [hlm] at he
      have hs := listMin_spec _ m hlm
      refine ⟨fun hemp => ?_, fun _ => ?_⟩
      · rw [hemp] at hlm
        simp [listMin] at hlm
      · rw [he]
        exact hs

/-- Witness for C1: with the five listings {100, 0, 50, 200, 80} the
floor is 50, a positive listing value below all others; with only four
active entries the floor equals the previous bucket's floor 7. -/
theorem c1_floor_recompute_witness :
    (¬ stW5.activeListings.length < 5) ∧
    (getFloorFromActiveListings envW storeW stW5 ∈ posVals storeW stW5.activeListings ∧
      ∀ v ∈ posVals storeW stW5.activeListings,
        getFloorFromActiveListings envW storeW stW5 ≤ v) ∧
    getFloorFromActiveListings envW storeW stW5 = 50 ∧
    stW4.activeListings.length < 5 ∧
    getFloorFromActiveListings envW storeW stW4 =
      (match storeW.states (envW.timestampToId (toI32 stW4.timestamp) 1) with
       | some p => p.floor
       | none => 0) ∧
    getFloorFromActiveListings envW storeW stW4 = 7 :=
  ⟨by decide,
   ((c1_floor_recompute envW storeW stW5).2 (by decide)).2 (by decide),
   by decide,
   by decide,
   (c1_floor_recompute envW storeW stW4).1 (by decide),
   by decide⟩

/-- C2: when the bucket has no snapshot, `getOrCreateState` builds one
with zeroed period counters (listings, delistings, bids, sales, volume)
whose owners and activeListings are copied from the nearest snapshot
found by probing lookbacks 1..30 (zero / empty when none exists there);
when the bucket's snapshot exists it is returned unchanged. -/
theorem c2_snapshot_creation (env : Env) (store : Store) (ts : Int) :
    (∀ s0, store.states (env.timestampToId (toI32 ts) 0) = some s0 →
      getOrCreateState env store ts = s0) ∧
    (store.states (env.timestampToId (toI32 ts) 0) = none →
      (getOrCreateState env store ts).listings = 0 ∧
      (getOrCreateState env store ts).delistings = 0 ∧
      (getOrCreateState env store ts).bids = 0 ∧
      (getOrCreateState env store ts).sales = 0 ∧
      (getOrCreateState env store ts).volume = 0 ∧
      ((∀ k, 1 ≤ k → k ≤ 30 →
          store.states (env.timestampToId (toI32 ts) k) = none) →
        (getOrCreateState env store ts).owners = 0 ∧
        (getOrCreateState env store ts).activeListings = []) ∧
      (∀ k p, 1 ≤ k → k ≤ 30 →
        store.states (env.timestampToId (toI32 ts) k) = some p →
        (∀ j, 1 ≤ j → j < k →
          store.states (env.timestampToId (toI32 ts) j) = none) →
        (getOrCreateState env store ts).owners = p.owners ∧
        (getOrCreateState env store ts).activeListings = p.activeListings)) := by
  constructor
  · intro s0 h0
    simp only [getOrCreateState, h0]
  · intro h0
    refine ⟨?_, ?_, ?_, ?_, ?_, ?_, ?_⟩
    · simp only [getOrCreateState, h0]; split <;> rfl
    · simp only [getOrCreateState, h0]; split <;> rfl
    · simp only [getOrCreateState, h0]; split <;> rfl
    · simp only [getOrCreateState, h0]; split <;> rfl
    · simp only [getOrCreateState, h0]; split <;> rfl
    · intro hk
      have hlb : stateLookback env store (toI32 ts) 1 30 = none :=
        stateLookback_none env store (toI32 ts) 30 1
          (fun k hk1 hk2 => hk k hk1 (by omega))
      constructor <;>
        · simp only [getOrCreateState, h0, hlb]
          split <;> rfl
    · intro k p hk1 hk2 hkp hmin
      have hlb : stateLookback env store (toI32 ts) 1 30 = some p :=
        stateLookback_found env store (toI32 ts) 30 1 k p hk1 (by omega) hkp
          (fun j hj1 hj2 => hmin j hj1 hj2)
      constructor <;>
        · simp only [getOrCreateState, h0, hlb]
          split <;> rfl

/-- Witness for C2: on the concrete store the bucket "B0" has no
snapshot, the nearest predecessor is found at lookback 1 ("B1") and its
owners (3) and active listings (["9"]) are carried, with zeroed
counters; on a store where "B0" exists that snapshot is returned. -/
theorem c2_snapshot_creation_witness :
    (storeW.states (envW.timestampToId (toI32 100) 0) = none ∧
      (getOrCreateState envW storeW 100).listings = 0 ∧
      (getOrCreateState envW storeW 100).delistings = 0 ∧
      (getOrCreateState envW storeW 100).bids = 0 ∧
      (getOrCreateState envW storeW 100).sales = 0 ∧
      (getOrCreateState envW storeW 100).volume = 0 ∧
      (getOrCreateState envW storeW 100).owners = stB1.owners ∧
      (getOrCreateState envW storeW 100).activeListings = stB1.activeListings) ∧
    (storeC3.states (envW.timestampToId (toI32 100) 0) = some stC3 ∧
      getOrCreateState envW storeC3 100 = stC3) := by
  have h2 := (c2_snapshot_creation envW storeW 100).2 (by decide)
  have hfound := h2.2.2.2.2.2.2 1 stB1 (by decide) (by decide) (by decide)
    (by intro j h1 h2; omega)
  exact ⟨⟨by decide, h2.1, h2.2.1, h2.2.2.1, h2.2.2.2.1, h2.2.2.2.2.1,
      hfound.1, hfound.2⟩,
    ⟨by decide, (c2_snapshot_creation envW storeC3 100).1 stC3 (by decide)⟩⟩

/-- C3 counterexample: a public offer (restricted-buyer address is the
zero address) of value 40, nonzero and strictly below the current floor
100, does NOT set the snapshot's floor to 40 — the handler leaves the
floor at 100, because the fast-path condition in the source requires
`toAccount.id != ZERO_ADDRESS`, i.e. a private offer. -/
theorem c3_public_offer_counterexample :
    evC3.toAddress = ZERO_ADDRESS ∧
    evC3.minValue = 40 ∧
    (storeC3.states "B0").map (fun x => x.floor) = some 100 ∧
    ((handlePunkOffered envW storeC3 evC3).states "B0").map (fun x => x.floor) =
      some 100 ∧
    ((handlePunkOffered envW storeC3 evC3).states "B0").map (fun x => x.floor) ≠
      some 40 := by
  decide

/-- C3 amended: for every Offer event whose restricted-buyer address is
NOT the zero address (a private/restricted listing) and whose value is
nonzero and strictly below the current snapshot's floor, handling the
event sets the snapshot's floor directly to that value; for public
(zero restricted-buyer) offers this fast-path lowering does not apply
and the floor is left unchanged. -/
theorem c3_offer_floor_fast_path (env : Env) (store : Store)
    (e : PunkOfferedEvent) (s : State)
    (hs : store.states (env.timestampToId (toI32 e.blockTimestamp) 0) = some s)
    (hsid : s.id = env.timestampToId (toI32 e.blockTimestamp) 0)
    (hok : accountIdOk store e.toAddress = true) :
    (e.toAddress ≠ ZERO_ADDRESS → e.minValue ≠ 0 → e.minValue < s.floor →
      ((handlePunkOffered env store e).states
          (env.timestampToId (toI32 e.blockTimestamp) 0)).map (fun x => x.floor) =
        some e.minValue) ∧
    (e.toAddress = ZERO_ADDRESS →
      ((handlePunkOffered env store e).states
          (env.timestampToId (toI32 e.blockTimestamp) 0)).map (fun x => x.floor) =
        some s.floor) := by
  have hout := handlePunkOffered_states env store e s hs hok
  rw [hsid] at hout
  constructor
  · intro h1 h2 h3
    simp [hout, upd, h1, h2, h3]
  · intro h1
    simp [hout, upd, h1, ZERO_ADDRESS]

/-- Witness for C3 amended: on the concrete store with floor 100, the
private offer of 40 lowers the floor to 40, while the public offer of
40 leaves the floor at 100. -/
theorem c3_offer_floor_fast_path_witness :
    (evC3p.toAddress ≠ ZERO_ADDRESS ∧ evC3p.minValue ≠ 0 ∧
      evC3p.minValue < stC3.floor ∧
      ((handlePunkOffered envW storeC3 evC3p).states
          (envW.timestampToId (toI32 evC3p.blockTimestamp) 0)).map
          (fun x => x.floor) =
        some evC3p.minValue) ∧
    (evC3.toAddress = ZERO_ADDRESS ∧
      ((handlePunkOffered envW storeC3 evC3).states
          (envW.timestampToId (toI32 evC3.blockTimestamp) 0)).map
          (fun x => x.floor) =
        some stC3.floor) :=
  ⟨⟨by decide, by decide, by decide,
    (c3_offer_floor_fast_path envW storeC3 evC3p stC3 (by decide) (by decide)
        (by decide)).1 (by decide) (by decide) (by decide)⟩,
   ⟨by decide,
    (c3_offer_floor_fast_path envW storeC3 evC3 stC3 (by decide) (by decide)
        (by decide)).2 (by decide)⟩⟩

/-- A previously recorded top event with value 60. -/
def evtTop : Event :=
  { id := "T1", transactionHash := "0xa", type := "BidEntered", tokenId := 1,
    fromAccount := some "0xb", toAccount := some ZERO_ADDRESS, value := 60,
    usd := none, blockNumber := 0, blockTimestamp := 0 }

/-- A snapshot referencing `evtTop` as both top bid and top sale. -/
def stC4 : State :=
  { id := "B0", timestamp := 100, floor := 0, volume := 0,
    topBid := some "T1", bids := 2, topSale := some "T1", sales := 1,
    owners := 0, activeListings := [], listings := 0, delistings := 0,
    usd := none }

/-- A store holding `stC4` and the top event `evtTop`. -/
def storeC4 : Store :=
  { accounts := fun _ => none, punks := fun _ => none,
    listings := fun _ => none, bids := fun _ => none,
    events := fun k => if k = "T1" then some evtTop else none,
    states := fun k => if k = "B0" then some stC4 else none,
    transfers := fun _ => none }

/-- A bid equal in value (60) to the current top bid: a tie. -/
def evC4bid : PunkBidEnteredEvent :=
  { punkIndex := 1, value := 60, fromAddress := "0xc", txHash := "0xd",
    logIndex := 2, blockNumber := 7, blockTimestamp := 100 }

/-- A sale of value 70, strictly above the current top sale. -/
def evC4buy : PunkBoughtEvent :=
  { punkIndex := 1, value := 70, fromAddress := "0xc", toAddress := "0xe",
    txHash := "0xf", logIndex := 3, blockNumber := 8, blockTimestamp := 100 }

/-- C4: on a bid-entered event, and symmetrically on a recorded sale,
the top-bid (resp. top-sale) reference is updated by the rule
`topRankSpec`: when no top event is referenced (or its lookup fails) or
the stored top value is not strictly positive, the candidate becomes the
top unconditionally; otherwise the candidate replaces the top iff its
value is strictly greater — equal values never replace. -/
theorem c4_top_rank_rule :
    (∀ (env : Env) (store : Store) (e : PunkBidEnteredEvent) (s : State),
      store.states (env.timestampToId (toI32 e.blockTimestamp) 0) = some s →
      s.id = env.timestampToId (toI32 e.blockTimestamp) 0 →
      (∀ tid, s.topBid = some tid → tid ≠ getGlobalId e.txHash e.logIndex) →
      ∃ s2, (handlePunkBidEntered env store e).states
          (env.timestampToId (toI32 e.blockTimestamp) 0) = some s2 ∧
        s2.bids = s.bids + 1 ∧
        s2.topBid = topRankSpec (getGlobalId e.txHash e.logIndex) e.value
          s.topBid (loadPrevBidEvent store s.topBid)) ∧
    (∀ (env : Env) (store : Store) (e : PunkBoughtEvent) (s : State),
      store.states (env.timestampToId (toI32 e.blockTimestamp) 0) = some s →
      s.id = env.timestampToId (toI32 e.blockTimestamp) 0 →
      accountIdOk store e.toAddress = true →
      e.toAddress ≠ ZERO_ADDRESS →
      store.bids (toString e.punkIndex) = none →
      ¬ e.value = 0 →
      (∀ tid, s.topSale = some tid → tid ≠ getGlobalId e.txHash e.logIndex) →
      ∃ s2, (handlePunkBought env store e).states
          (env.timestampToId (toI32 e.blockTimestamp) 0) = some s2 ∧
        s2.sales = s.sales + 1 ∧
        s2.topSale = topRankSpec (getGlobalId e.txHash e.logIndex) e.value
          s.topSale (loadPrevSaleEvent store s.topSale)) :=
  ⟨fun env store e s hs hsid htid =>
      handlePunkBidEntered_topBid env store e s hs hsid htid,
   fun env store e s hs hsid hok hzero hbid hval htid =>
      handlePunkBought_topSale env store e s hs hsid hok hzero hbid hval htid⟩

/-- Witness for C4: a bid tying the current top (60 vs 60) and a sale
beating the current top (70 vs 60), on a concrete store. -/
theorem c4_top_rank_rule_witness :
    (∃ s2, (handlePunkBidEntered envW storeC4 evC4bid).states
        (envW.timestampToId (toI32 evC4bid.blockTimestamp) 0) = some s2 ∧
      s2.bids = stC4.bids + 1 ∧
      s2.topBid = topRankSpec (getGlobalId evC4bid.txHash evC4bid.logIndex)
        evC4bid.value stC4.topBid (loadPrevBidEvent storeC4 stC4.topBid)) ∧
    (∃ s2, (handlePunkBought envW storeC4 evC4buy).states
        (envW.timestampToId (toI32 evC4buy.blockTimestamp) 0) = some s2 ∧
      s2.sales = stC4.sales + 1 ∧
      s2.topSale = topRankSpec (getGlobalId evC4buy.txHash evC4buy.logIndex)
        evC4buy.value stC4.topSale (loadPrevSaleEvent storeC4 stC4.topSale)) :=
  ⟨c4_top_rank_rule.1 envW storeC4 evC4bid stC4 (by decide) (by decide)
      (by
        intro tid h
        have h2 : some "T1" = some tid := h
        injection h2 with h3
        rw [← h3]
        decide),
   c4_top_rank_rule.2 envW storeC4 evC4buy stC4 (by decide) (by decide)
      (by decide) (by decide) (by decide) (by decide)
      (by
        intro tid h
        have h2 : some "T1" = some tid := h
        injection h2 with h3
        rw [← h3]
        decide)⟩

/-- A store where account "0xa" holds punks "5" and "9" and account
"0xb" already holds punk "5". -/
def storeC5 : Store :=
  { accounts := fun k =>
      if k = "0xa" then some { id := "0xa", punks := ["5", "9"] }
      else if k = "0xb" then some { id := "0xb", punks := ["5"] }
      else none,
    punks := fun _ => none, listings := fun _ => none, bids := fun _ => none,
    events := fun _ => none, states := fun _ => none,
    transfers := fun _ => none }

/-- C5 counterexample: the receiver "0xb" already holds punk "5"; after
updateOwnership transfers punk "5" to it, its held set is ["5", "5"] —
the id occurs twice, not exactly once, because the source pushes the id
without a membership check. -/
theorem c5_push_duplicates_counterexample :
    (storeC5.accounts "0xb").map (fun a => a.punks) = some ["5"] ∧
    ((updateOwnership envW storeC5 "0xt" 100 "5" "0xb" "0xa").accounts
        "0xb").map (fun a => a.punks) = some ["5", "5"] ∧
    ((updateOwnership envW storeC5 "0xt" 100 "5" "0xb" "0xa").accounts
        "0xb").map (fun a => a.punks.count "5") = some 2 := by
  decide

/-- C5 amended: adding the asset id to the receiver's held set is an
unconditional append: the receiver's set afterwards is its previous
value with the id pushed at the end, so an id already present occurs
once more than before — duplicates are created, the addition is not
idempotent. -/
theorem c5_receiver_push (env : Env) (store : Store) (tx : String)
    (ts : Int) (punkId toA fromA : String)
    (hok : accountIdOk store toA = true) :
    ((updateOwnership env store tx ts punkId toA fromA).accounts toA).map
        (fun a => a.punks) = some (heldPunks store toA ++ [punkId]) ∧
    ((updateOwnership env store tx ts punkId toA fromA).accounts toA).map
        (fun a => a.punks.count punkId) =
      some ((heldPunks store toA).count punkId + 1) := by
  rw [updateOwnership_accounts_to env store tx ts punkId toA fromA hok]
  exact ⟨rfl, by simp⟩

/-- Witness for C5 amended: transferring punk "5" to "0xb", which
already holds it, appends a second copy. -/
theorem c5_receiver_push_witness :
    ((updateOwnership envW storeC5 "0xt" 100 "5" "0xb" "0xa").accounts
        "0xb").map (fun a => a.punks) =
      some (heldPunks storeC5 "0xb" ++ ["5"]) ∧
    ((updateOwnership envW storeC5 "0xt" 100 "5" "0xb" "0xa").accounts
        "0xb").map (fun a => a.punks.count "5") =
      some ((heldPunks storeC5 "0xb").count "5" + 1) :=
  c5_receiver_push envW storeC5 "0xt" 100 "5" "0xb" "0xa" (by decide)

/-- A snapshot for bucket "B0" with 10 distinct owners. -/
def stC6 : State :=
  { id := "B0", timestamp := 100, floor := 0, volume := 0, topBid := none,
    bids := 0, topSale := none, sales := 0, owners := 10,
    activeListings := [], listings := 0, delistings := 0, usd := none }

/-- A store where account "0xa" holds only punk "7" (not the punk "5"
being transferred) and bucket "B0" has snapshot `stC6`. -/
def storeC6 : Store :=
  { accounts := fun k =>
      if k = "0xa" then some { id := "0xa", punks := ["7"] } else none,
    punks := fun _ => none, listings := fun _ => none, bids := fun _ => none,
    events := fun _ => none,
    states := fun k => if k = "B0" then some stC6 else none,
    transfers := fun _ => none }

/-- C6 counterexample: sender "0xa" holds only punk "7" and punk "5" is
transferred to the fresh account "0xb". The sender's held set after the
removal is ["7"], not empty, so by the claim no decrement should occur
and the counter should become 11 (increment for the fresh receiver);
the code instead tests `length == 1` before the removal, decrements,
and leaves the counter at 10. -/
theorem c6_owner_counter_counterexample :
    (storeC6.accounts "0xa").map (fun a => a.punks) = some ["7"] ∧
    ["7"].filter (fun n => n ≠ "5") = ["7"] ∧
    (storeC6.states "B0").map (fun x => x.owners) = some 10 ∧
    ((updateOwnership envW storeC6 "0xt" 100 "5" "0xb" "0xa").states
        "B0").map (fun x => x.owners) = some 10 ∧
    ((updateOwnership envW storeC6 "0xt" 100 "5" "0xb" "0xa").states
        "B0").map (fun x => x.owners) ≠ some 11 := by
  decide

/-- C6 amended: the distinct-owner counter is incremented exactly when
the receiver's held set was empty before the addition, and decremented
exactly when the sender's held set has EXACTLY ONE element before the
removal (the source tests `length == 1` on the pre-removal set, not
emptiness after removal). The three scenario consequences hold:
single-asset sender to empty receiver leaves the count unchanged, two
multi-asset accounts leave it unchanged, and a multi-asset sender to a
brand-new account increments it by one. -/
theorem c6_owner_counter (env : Env) (store : Store) (tx : String)
    (ts : Int) (punkId toA fromA : String) (s : State)
    (hs : store.states (env.timestampToId (toI32 ts) 0) = some s)
    (hsid : s.id = env.timestampToId (toI32 ts) 0) :
    ∃ s2, (updateOwnership env store tx ts punkId toA fromA).states
        (env.timestampToId (toI32 ts) 0) = some s2 ∧
      s2.owners =
        (if (heldPunks store fromA).length = 1 then s.owners - 1
         else s.owners) +
        (if (heldPunks store toA).length = 0 then 1 else 0) ∧
      ((heldPunks store fromA).length = 1 → heldPunks store toA = [] →
        s2.owners = s.owners) ∧
      (1 < (heldPunks store fromA).length → heldPunks store toA ≠ [] →
        s2.owners = s.owners) ∧
      (1 < (heldPunks store fromA).length → heldPunks store toA = [] →
        s2.owners = s.owners + 1) := by
  rw [updateOwnership_states env store tx ts punkId toA fromA s hs]
  simp only [upd, ← hsid, eq_self_iff_true, ite_true]
  refine ⟨_, rfl, by simp, ?_, ?_, ?_⟩
  · intro h1 h2
    simp [h1, h2]
  · intro h1 h2
    have hf : ¬ (heldPunks store fromA).length = 1 := by omega
    have ht : ¬ (heldPunks store toA).length = 0 := by
      simpa [List.length_eq_zero] using h2
    simp [hf, ht]
  · intro h1 h2
    have hf : ¬ (heldPunks store fromA).length = 1 := by omega
    simp [hf, h2]

/-- Witness for C6 amended: the concrete transfer of punk "5" from
"0xa" (which holds only punk "7") to the fresh account "0xb" on the
snapshot with 10 owners. -/
theorem c6_owner_counter_witness :
    ∃ s2, (updateOwnership envW storeC6 "0xt" 100 "5" "0xb" "0xa").states
        (envW.timestampToId (toI32 100) 0) = some s2 ∧
      s2.owners =
        (if (heldPunks storeC6 "0xa").length = 1 then stC6.owners - 1
         else stC6.owners) +
        (if (heldPunks storeC6 "0xb").length = 0 then 1 else 0) ∧
      ((heldPunks storeC6 "0xa").length = 1 → heldPunks storeC6 "0xb" = [] →
        s2.owners = stC6.owners) ∧
      (1 < (heldPunks storeC6 "0xa").length → heldPunks storeC6 "0xb" ≠ [] →
        s2.owners = stC6.owners) ∧
      (1 < (heldPunks storeC6 "0xa").length → heldPunks storeC6 "0xb" = [] →
        s2.owners = stC6.owners + 1) :=
  c6_owner_counter envW storeC6 "0xt" 100 "5" "0xb" "0xa" stC6 (by decide)
    (by decide)

/-- C7: for a Bought event whose reported buyer is the zero address
while a Bid exists for the asset, the handler resolves the buyer to the
bid's bidder and the value to the bid's value, deletes both the Bid and
the Listing, records a Sale event with that buyer and value, and bumps
the snapshot's sales counter by one and its volume by the bid value. -/
theorem c7_zero_buyer_bid_fallback (env : Env) (store : Store)
    (e : PunkBoughtEvent) (s : State) (b : Bid)
    (hs : store.states (env.timestampToId (toI32 e.blockTimestamp) 0) = some s)
    (hsid : s.id = env.timestampToId (toI32 e.blockTimestamp) 0)
    (hzero : e.toAddress = ZERO_ADDRESS)
    (hbid : store.bids (toString e.punkIndex) = some b)
    (hok0 : accountIdOk store e.toAddress = true)
    (hokb : accountIdOk store b.fromAccount = true)
    (htid : ∀ tid, s.topSale = some tid →
      tid ≠ getGlobalId e.txHash e.logIndex) :
    (handlePunkBought env store e).bids (toString e.punkIndex) = none ∧
    (handlePunkBought env store e).listings (toString e.punkIndex) = none ∧
    (∃ ev, (handlePunkBought env store e).events
        (getGlobalId e.txHash e.logIndex) = some ev ∧
      ev.type = "Sale" ∧ ev.toAccount = some b.fromAccount ∧
      ev.value = b.value) ∧
    (∃ s2, (handlePunkBought env store e).states
        (env.timestampToId (toI32 e.blockTimestamp) 0) = some s2 ∧
      s2.sales = s.sales + 1 ∧ s2.volume = s.volume + b.value) := by
  have hok1 := accountIdOk_getOrCreate store e.fromAddress e.toAddress hok0
  have hid0 := getOrCreateAccount_fst_id _ e.toAddress hok1
  have hokb1 := accountIdOk_getOrCreate store e.fromAddress b.fromAccount hokb
  have hokb2 := accountIdOk_getOrCreate
    (getOrCreateAccount store e.fromAddress).2 e.toAddress b.fromAccount hokb1
  have hid3 := getOrCreateAccount_fst_id _ b.fromAccount hokb2
  have hs3 : (setPunkNoLongerForSale
      (getOrCreateAccount (getOrCreateAccount (getOrCreateAccount store
        e.fromAddress).2 e.toAddress).2 b.fromAccount).2
      (toString e.punkIndex) true).states
      (env.timestampToId (toI32 e.blockTimestamp) 0) = some s := by
    rw [setPunkNoLongerForSale_states, getOrCreateAccount_states,
      getOrCreateAccount_states, getOrCreateAccount_states, hs]
  have hupdS := updateOwnership_states env _ e.txHash e.blockTimestamp
    (toString e.punkIndex) b.fromAccount
    (getOrCreateAccount store e.fromAddress).1.id s hs3
  have hupdE := updateOwnership_events env
    (setPunkNoLongerForSale
      (getOrCreateAccount (getOrCreateAccount (getOrCreateAccount store
        e.fromAddress).2 e.toAddress).2 b.fromAccount).2
      (toString e.punkIndex) true)
    e.txHash e.blockTimestamp (toString e.punkIndex) b.fromAccount
    (getOrCreateAccount store e.fromAddress).1.id
  have hupdB := updateOwnership_bids env
    (setPunkNoLongerForSale
      (getOrCreateAccount (getOrCreateAccount (getOrCreateAccount store
        e.fromAddress).2 e.toAddress).2 b.fromAccount).2
      (toString e.punkIndex) true)
    e.txHash e.blockTimestamp (toString e.punkIndex) b.fromAccount
    (getOrCreateAccount store e.fromAddress).1.id
  have hupdL := updateOwnership_listings env
    (setPunkNoLongerForSale
      (getOrCreateAccount (getOrCreateAccount (getOrCreateAccount store
        e.fromAddress).2 e.toAddress).2 b.fromAccount).2
      (toString e.punkIndex) true)
    e.txHash e.blockTimestamp (toString e.punkIndex) b.fromAccount
    (getOrCreateAccount store e.fromAddress).1.id
  rw [hzero] at hid0 hokb2 hid3 hs3 hupdS hupdE hupdB hupdL
  refine ⟨?_, ?_, ?_, ?_⟩
  · simp only [handlePunkBought, getOrCreateAccount_bids, hbid, hid0, hzero, eq_self_iff_true,
      ite_true, hid3, Option.isNone_some, Bool.false_eq_true, false_and,
      if_false, saveEvent, saveState, hupdB, setPunkNoLongerForSale_bids_true,
      getOrCreateAccount_bids, upd]
  · simp only [handlePunkBought, getOrCreateAccount_bids, hbid, hid0, hzero, eq_self_iff_true,
      ite_true, hid3, Option.isNone_some, Bool.false_eq_true, false_and,
      if_false, saveEvent, saveState, hupdL, setPunkNoLongerForSale_listings,
      getOrCreateAccount_listings, upd]
  · simp only [handlePunkBought, getOrCreateAccount_bids, hbid, hid0, hzero, eq_self_iff_true,
      ite_true, hid3, Option.isNone_some, Bool.false_eq_true, false_and,
      if_false, saveEvent, saveState, hupdE, setPunkNoLongerForSale_events,
      getOrCreateAccount_events, upd]
    exact ⟨_, rfl, rfl, rfl, rfl⟩
  · rcases hts : s.topSale with _ | tid
    · simp only [handlePunkBought, getOrCreateAccount_bids, hbid, hid0, hzero, eq_self_iff_true,
        ite_true, hid3, Option.isNone_some, Bool.false_eq_true, false_and,
        if_false, saveEvent, saveState, getOrCreateState, hupdS, hupdE,
        setPunkNoLongerForSale_events, getOrCreateAccount_events, upd, hts,
        loadPrevSaleEvent, ← hsid, ite_true]
      exact ⟨_, rfl, by simp, by simp⟩
    · have hne := htid tid hts
      rcases hev : store.events tid with _ | pe
      · simp only [handlePunkBought, getOrCreateAccount_bids, hbid, hid0, hzero, eq_self_iff_true,
          ite_true, hid3, Option.isNone_some, Bool.false_eq_true, false_and,
          if_false, saveEvent, saveState, getOrCreateState, hupdS, hupdE,
          setPunkNoLongerForSale_events, getOrCreateAccount_events, upd, hts,
          loadPrevSaleEvent, if_neg hne, hev, ← hsid, ite_true]
        exact ⟨_, rfl, by simp, by simp⟩
      · by_cases hv : 0 < pe.value
        · by_cases hlt : pe.value < b.value
          · simp only [handlePunkBought, getOrCreateAccount_bids, hbid, hid0, hzero, eq_self_iff_true,
              ite_true, hid3, Option.isNone_some, Bool.false_eq_true,
              false_and, if_false, saveEvent, saveState, getOrCreateState,
              hupdS, hupdE, setPunkNoLongerForSale_events,
              getOrCreateAccount_events, upd, hts, loadPrevSaleEvent,
              if_neg hne, hev, if_pos hv, if_pos hlt, ← hsid, ite_true]
            exact ⟨_, rfl, by simp, by simp⟩
          · simp only [handlePunkBought, getOrCreateAccount_bids, hbid, hid0, hzero, eq_self_iff_true,
              ite_true, hid3, Option.isNone_some, Bool.false_eq_true,
              false_and, if_false, saveEvent, saveState, getOrCreateState,
              hupdS, hupdE, setPunkNoLongerForSale_events,
              getOrCreateAccount_events, upd, hts, loadPrevSaleEvent,
              if_neg hne, hev, if_pos hv, if_neg hlt, ← hsid, ite_true]
            exact ⟨_, rfl, by simp, by simp⟩
        · simp only [handlePunkBought, getOrCreateAccount_bids, hbid, hid0, hzero, eq_self_iff_true,
            ite_true, hid3, Option.isNone_some, Bool.false_eq_true, false_and,
            if_false, saveEvent, saveState, getOrCreateState, hupdS, hupdE,
            setPunkNoLongerForSale_events, getOrCreateAccount_events, upd, hts,
            loadPrevSaleEvent, if_neg hne, hev, if_neg hv, ← hsid, ite_true]
          exact ⟨_, rfl, by simp, by simp⟩

/-- The existing bid of 50 on punk 3 by "0xbidder". -/
def bidC7 : Bid :=
  { id := "3", punk := "3", value := 50, usd := none,
    fromAccount := "0xbidder", blockNumber := 0, blockTimestamp := 0,
    transactionHash := "0xa" }

/-- A snapshot with sales = 2 and volume = 7. -/
def stC7 : State :=
  { id := "B0", timestamp := 100, floor := 0, volume := 7, topBid := none,
    bids := 0, topSale := none, sales := 2, owners := 0, activeListings := [],
    listings := 0, delistings := 0, usd := none }

/-- A store with the bid `bidC7`, a listing for punk 3 and snapshot
`stC7`. -/
def storeC7 : Store :=
  { accounts := fun _ => none, punks := fun _ => none,
    listings := fun k => if k = "3" then some (mkListing "3" 60) else none,
    bids := fun k => if k = "3" then some bidC7 else none,
    events := fun _ => none,
    states := fun k => if k = "B0" then some stC7 else none,
    transfers := fun _ => none }

/-- Bought(asset 3, value 0, buyer reported as the zero address). -/
def evC7 : PunkBoughtEvent :=
  { punkIndex := 3, value := 0, fromAddress := "0xy",
    toAddress := ZERO_ADDRESS, txHash := "0xc7", logIndex := 4,
    blockNumber := 9, blockTimestamp := 100 }

/-- Witness for C7: the spec's scenario — Bid(3, 50, "0xbidder") and
Bought(3, 0, toAddress zero) resolve to buyer "0xbidder" and value 50,
delete the Bid and Listing, emit the Sale event, and advance
sales 2→3 and volume 7→57. -/
theorem c7_zero_buyer_bid_fallback_witness :
    (handlePunkBought envW storeC7 evC7).bids (toString evC7.punkIndex) =
      none ∧
    (handlePunkBought envW storeC7 evC7).listings (toString evC7.punkIndex) =
      none ∧
    (∃ ev, (handlePunkBought envW storeC7 evC7).events
        (getGlobalId evC7.txHash evC7.logIndex) = some ev ∧
      ev.type = "Sale" ∧ ev.toAccount = some bidC7.fromAccount ∧
      ev.value = bidC7.value) ∧
    (∃ s2, (handlePunkBought envW storeC7 evC7).states
        (envW.timestampToId (toI32 evC7.blockTimestamp) 0) = some s2 ∧
      s2.sales = stC7.sales + 1 ∧ s2.volume = stC7.volume + bidC7.value) :=
  c7_zero_buyer_bid_fallback envW storeC7 evC7 stC7 bidC7 (by decide)
    (by decide) (by decide) (by decide) (by decide) (by decide)
    (by intro tid h; exact Option.noConfusion h)

/-- C8: for a Bought event with zero value and no Bid on record, the
handler creates no Event record and leaves the snapshot's sales,
volume, top-sale reference, active-listing set and floor unchanged. -/
theorem c8_zero_value_no_bid_noop (env : Env) (store : Store)
    (e : PunkBoughtEvent) (s : State)
    (hs : store.states (env.timestampToId (toI32 e.blockTimestamp) 0) = some s)
    (hsid : s.id = env.timestampToId (toI32 e.blockTimestamp) 0)
    (hval : e.value = 0)
    (hbid : store.bids (toString e.punkIndex) = none) :
    (∀ k, (handlePunkBought env store e).events k = store.events k) ∧
    (∃ s2, (handlePunkBought env store e).states
        (env.timestampToId (toI32 e.blockTimestamp) 0) = some s2 ∧
      s2.sales = s.sales ∧ s2.volume = s.volume ∧ s2.topSale = s.topSale ∧
      s2.activeListings = s.activeListings ∧ s2.floor = s.floor) := by
  have hs3t : (setPunkNoLongerForSale
      (getOrCreateAccount (getOrCreateAccount store e.fromAddress).2
        e.toAddress).2 (toString e.punkIndex) true).states
      (env.timestampToId (toI32 e.blockTimestamp) 0) = some s := by
    rw [setPunkNoLongerForSale_states, getOrCreateAccount_states,
      getOrCreateAccount_states, hs]
  have hs3f : (setPunkNoLongerForSale
      (getOrCreateAccount (getOrCreateAccount store e.fromAddress).2
        e.toAddress).2 (toString e.punkIndex) false).states
      (env.timestampToId (toI32 e.blockTimestamp) 0) = some s := by
    rw [setPunkNoLongerForSale_states, getOrCreateAccount_states,
      getOrCreateAccount_states, hs]
  have hupdSt := updateOwnership_states env _ e.txHash e.blockTimestamp
    (toString e.punkIndex)
    (getOrCreateAccount (getOrCreateAccount store e.fromAddress).2
      e.toAddress).1.id
    (getOrCreateAccount store e.fromAddress).1.id s hs3t
  have hupdSf := updateOwnership_states env _ e.txHash e.blockTimestamp
    (toString e.punkIndex)
    (getOrCreateAccount (getOrCreateAccount store e.fromAddress).2
      e.toAddress).1.id
    (getOrCreateAccount store e.fromAddress).1.id s hs3f
  by_cases hc : (getOrCreateAccount (getOrCreateAccount store
      e.fromAddress).2 e.toAddress).1.id = ZERO_ADDRESS
  · constructor
    · intro k
      simp only [handlePunkBought, getOrCreateAccount_bids, hbid, hc,
        eq_self_iff_true, ite_true, Option.isNone_none, true_and, hval,
        updateOwnership_events, setPunkNoLongerForSale_events,
        getOrCreateAccount_events]
    · rw [hc] at hupdSt
      simp only [handlePunkBought, getOrCreateAccount_bids, hbid, hc,
        eq_self_iff_true, ite_true, Option.isNone_none, true_and, hval,
        hupdSt, upd, ← hsid]
      exact ⟨_, rfl, rfl, rfl, rfl, rfl, rfl⟩
  · constructor
    · intro k
      simp only [handlePunkBought, getOrCreateAccount_bids, hbid,
        if_neg hc, Option.isNone_none, true_and, hval, eq_self_iff_true,
        ite_true, updateOwnership_events, setPunkNoLongerForSale_events,
        getOrCreateAccount_events]
    · simp only [handlePunkBought, getOrCreateAccount_bids, hbid,
        if_neg hc, Option.isNone_none, true_and, hval, eq_self_iff_true,
        ite_true, hupdSf, upd, ← hsid]
      exact ⟨_, rfl, rfl, rfl, rfl, rfl, rfl⟩

/-- Bought(asset 9, value 0) with no bid on record for asset 9. -/
def evC8 : PunkBoughtEvent :=
  { punkIndex := 9, value := 0, fromAddress := "0xy", toAddress := "0xz",
    txHash := "0xc8", logIndex := 5, blockNumber := 9,
    blockTimestamp := 100 }

/-- Witness for C8: the spec's scenario — Bought(9, 0) with no bid on a
concrete store leaves events, sales, volume, topSale, activeListings
and floor untouched. -/
theorem c8_zero_value_no_bid_noop_witness :
    (∀ k, (handlePunkBought envW storeC7 evC8).events k =
      storeC7.events k) ∧
    (∃ s2, (handlePunkBought envW storeC7 evC8).states
        (envW.timestampToId (toI32 evC8.blockTimestamp) 0) = some s2 ∧
      s2.sales = stC7.sales ∧ s2.volume = stC7.volume ∧
      s2.topSale = stC7.topSale ∧ s2.activeListings = stC7.activeListings ∧
      s2.floor = stC7.floor) :=
  c8_zero_value_no_bid_noop envW storeC7 evC8 stC7 (by decide) (by decide)
    (by decide) (by decide)

/-- C9: on a no-longer-for-sale event, when a raw Transfer shares the
transaction no OfferWithdrawn event is created and delistings is not
incremented; otherwise an OfferWithdrawn event is recorded and
delistings is incremented by one. In both cases the Listing is deleted,
the asset id is removed from the snapshot's active-listing set, and the
floor is recomputed over the resulting store. -/
theorem c9_delisting (env : Env) (store : Store)
    (e : PunkNoLongerForSaleEvent) (s : State)
    (hs : store.states (env.timestampToId (toI32 e.blockTimestamp) 0) = some s)
    (hsid : s.id = env.timestampToId (toI32 e.blockTimestamp) 0)
    (hprev : env.timestampToId (toI32 s.timestamp) 1 ≠
      env.timestampToId (toI32 e.blockTimestamp) 0) :
    (handlePunkNoLongerForSale env store e).listings (toString e.punkIndex) =
      none ∧
    (∀ t, store.transfers e.txHash = some t →
      (∀ k, (handlePunkNoLongerForSale env store e).events k =
        store.events k) ∧
      ∃ s2, (handlePunkNoLongerForSale env store e).states
          (env.timestampToId (toI32 e.blockTimestamp) 0) = some s2 ∧
        s2.delistings = s.delistings ∧
        s2.activeListings =
          s.activeListings.filter (fun id => id ≠ toString e.punkIndex) ∧
        s2.floor = getFloorFromActiveListings env
          (handlePunkNoLongerForSale env store e) s2) ∧
    (store.transfers e.txHash = none →
      (∃ ev, (handlePunkNoLongerForSale env store e).events
          (getGlobalId e.txHash e.logIndex) = some ev ∧
        ev.type = "OfferWithdrawn") ∧
      ∃ s2, (handlePunkNoLongerForSale env store e).states
          (env.timestampToId (toI32 e.blockTimestamp) 0) = some s2 ∧
        s2.delistings = s.delistings + 1 ∧
        s2.activeListings =
          s.activeListings.filter (fun id => id ≠ toString e.punkIndex) ∧
        s2.floor = getFloorFromActiveListings env
          (handlePunkNoLongerForSale env store e) s2) := by
  have hfilter : ¬ toString e.punkIndex ∈ s.activeListings →
      List.filter (fun id => !decide (id = toString e.punkIndex))
        s.activeListings = s.activeListings := by
    intro hmem
    rw [List.filter_eq_self]
    intro b hb
    simp
    intro hba
    exact hmem (hba ▸ hb)
  have hs2 : store.states s.id = some s := by rw [hsid]; exact hs
  refine ⟨?_, ?_, ?_⟩
  · rcases htr : store.transfers e.txHash with _ | t <;>
      simp only [handlePunkNoLongerForSale, setPunkNoLongerForSale_transfers,
        htr, Option.isSome_some, Option.isSome_none, Bool.not_true,
        Bool.not_false, Bool.false_eq_true, if_false, if_true, ite_true,
        saveEvent, saveState, setPunkNoLongerForSale_listings, upd,
        eq_self_iff_true]
  · intro t htr
    constructor
    · intro k
      simp only [handlePunkNoLongerForSale, setPunkNoLongerForSale_transfers,
        htr, Option.isSome_some, Bool.not_true, Bool.false_eq_true, if_false,
        saveState, setPunkNoLongerForSale_events]
    · simp only [handlePunkNoLongerForSale, setPunkNoLongerForSale_transfers,
        htr, Option.isSome_some, Bool.not_true, Bool.false_eq_true, if_false,
        saveState, getOrCreateState, setPunkNoLongerForSale_states, hs, hs2,
        upd, ← hsid, eq_self_iff_true, ite_true]
      by_cases hmem : toString e.punkIndex ∈ s.activeListings
      · refine ⟨_, rfl, rfl, by simp [hmem], ?_⟩
        refine getFloor_congr env _ _ _ _ (fun k => rfl) rfl rfl ?_
        simp [upd, hsid, hprev, setPunkNoLongerForSale_states]
      · refine ⟨_, rfl, rfl, by simp [hmem, hfilter hmem], ?_⟩
        refine getFloor_congr env _ _ _ _ (fun k => rfl) rfl rfl ?_
        simp [upd, hsid, hprev, setPunkNoLongerForSale_states]
  · intro htr
    constructor
    · simp only [handlePunkNoLongerForSale, setPunkNoLongerForSale_transfers,
        htr, Option.isSome_none, Bool.not_false, if_true, ite_true,
        saveState, saveEvent, setPunkNoLongerForSale_events, upd,
        eq_self_iff_true]
      exact ⟨_, rfl, rfl⟩
    · simp only [handlePunkNoLongerForSale, setPunkNoLongerForSale_transfers,
        htr, Option.isSome_none, Bool.not_false, if_true, ite_true,
        saveState, saveEvent, getOrCreateState, setPunkNoLongerForSale_states,
        hs, hs2, upd, ← hsid, eq_self_iff_true, ite_true]
      by_cases hmem : toString e.punkIndex ∈ s.activeListings
      · refine ⟨_, rfl, rfl, by simp [hmem], ?_⟩
        refine getFloor_congr env _ _ _ _ (fun k => rfl) rfl rfl ?_
        simp [upd, hsid, hprev, setPunkNoLongerForSale_states]
      · refine ⟨_, rfl, rfl, by simp [hmem, hfilter hmem], ?_⟩
        refine getFloor_congr env _ _ _ _ (fun k => rfl) rfl rfl ?_
        simp [upd, hsid, hprev, setPunkNoLongerForSale_states]

/-- A snapshot listing asset 7 with one active-listing entry. -/
def stC9 : State :=
  { id := "B0", timestamp := 100, floor := 5, volume := 0, topBid := none,
    bids := 0, topSale := none, sales := 0, owners := 0,
    activeListings := ["7"], listings := 1, delistings := 0, usd := none }

/-- A store with a listing for asset 7, snapshot `stC9` and no raw
Transfer recorded. -/
def storeC9 : Store :=
  { accounts := fun _ => none, punks := fun _ => none,
    listings := fun k => if k = "7" then some (mkListing "7" 100) else none,
    bids := fun _ => none, events := fun _ => none,
    states := fun k => if k = "B0" then some stC9 else none,
    transfers := fun _ => none }

/-- A raw Transfer recorded under transaction "0xc9". -/
def trC9 : Transfer :=
  { id := "0xc9", fromAddress := "0xa", toAddress := "0xb",
    transactionHash := "0xc9", tokenId := none }

/-- `storeC9` with the raw Transfer `trC9` recorded in the same
transaction. -/
def storeC9t : Store := { storeC9 with
  transfers := fun k => if k = "0xc9" then some trC9 else none }

/-- NoLongerForSale(asset 7) in transaction "0xc9". -/
def evC9 : PunkNoLongerForSaleEvent :=
  { punkIndex := 7, txHash := "0xc9", logIndex := 6, blockNumber := 9,
    blockTimestamp := 100 }

/-- Witness for C9: without a correlated Transfer the handler emits an
OfferWithdrawn event and bumps delistings 0→1; with the Transfer
recorded it emits nothing and keeps delistings at 0; both runs delete
the listing, clear the active-listing set and recompute the floor. -/
theorem c9_delisting_witness :
    ((handlePunkNoLongerForSale envW storeC9 evC9).listings
        (toString evC9.punkIndex) = none ∧
      (∃ ev, (handlePunkNoLongerForSale envW storeC9 evC9).events
          (getGlobalId evC9.txHash evC9.logIndex) = some ev ∧
        ev.type = "OfferWithdrawn") ∧
      ∃ s2, (handlePunkNoLongerForSale envW storeC9 evC9).states
          (envW.timestampToId (toI32 evC9.blockTimestamp) 0) = some s2 ∧
        s2.delistings = stC9.delistings + 1 ∧
        s2.activeListings = stC9.activeListings.filter
          (fun id => id ≠ toString evC9.punkIndex) ∧
        s2.floor = getFloorFromActiveListings envW
          (handlePunkNoLongerForSale envW storeC9 evC9) s2) ∧
    ((∀ k, (handlePunkNoLongerForSale envW storeC9t evC9).events k =
        storeC9t.events k) ∧
      ∃ s2, (handlePunkNoLongerForSale envW storeC9t evC9).states
          (envW.timestampToId (toI32 evC9.blockTimestamp) 0) = some s2 ∧
        s2.delistings = stC9.delistings ∧
        s2.activeListings = stC9.activeListings.filter
          (fun id => id ≠ toString evC9.punkIndex) ∧
        s2.floor = getFloorFromActiveListings envW
          (handlePunkNoLongerForSale envW storeC9t evC9) s2) :=
  ⟨⟨(c9_delisting envW storeC9 evC9 stC9 (by decide) (by decide)
        (by decide)).1,
    (c9_delisting envW storeC9 evC9 stC9 (by decide) (by decide)
        (by decide)).2.2 (by decide)⟩,
   (c9_delisting envW storeC9t evC9 stC9 (by decide) (by decide)
        (by decide)).2.1 trC9 (by decide)⟩

/-- A snapshot whose active-listing collection holds five copies of the
single asset id "1". -/
def stC10 : State := { stW5 with activeListings := ["1", "1", "1", "1", "1"] }

/-- A snapshot holding one entry for asset 7. -/
def stC10a : State := { stC3 with activeListings := ["7"] }

/-- A store whose "B0" snapshot is `stC10a`. -/
def storeC10 : Store := { storeC3 with
  states := fun k => if k = "B0" then some stC10a else none }

/-- C10: handling an Offer for an asset whose id is already in the
snapshot's active-listing collection appends the id again — the
collection holds duplicates and its count of the id grows to at least
two; and the floor engine's fewer-than-5 threshold counts entries with
multiplicity: five copies of one distinct listed asset take the
min-positive branch (floor 100 from the listing) instead of the
previous bucket's floor 7. -/
theorem c10_duplicate_active_listings :
    (∀ (env : Env) (store : Store) (e : PunkOfferedEvent) (s : State),
      store.states (env.timestampToId (toI32 e.blockTimestamp) 0) = some s →
      s.id = env.timestampToId (toI32 e.blockTimestamp) 0 →
      accountIdOk store e.toAddress = true →
      toString e.punkIndex ∈ s.activeListings →
      ∃ s2, (handlePunkOffered env store e).states
          (env.timestampToId (toI32 e.blockTimestamp) 0) = some s2 ∧
        s2.activeListings = s.activeListings ++ [toString e.punkIndex] ∧
        s2.activeListings.count (toString e.punkIndex) =
          s.activeListings.count (toString e.punkIndex) + 1 ∧
        2 ≤ s2.activeListings.count (toString e.punkIndex)) ∧
    (stC10.activeListings.dedup.length < 5 ∧
      5 ≤ stC10.activeListings.length ∧
      getFloorFromActiveListings envW storeW stC10 = 100 ∧
      (storeW.states (envW.timestampToId (toI32 stC10.timestamp) 1)).map
        (fun p => p.floor) = some 7) := by
  constructor
  · intro env store e s hs hsid hok hmem
    have hout := handlePunkOffered_states env store e s hs hok
    simp only [hout, upd, ← hsid, eq_self_iff_true, ite_true]
    refine ⟨_, rfl, rfl, ?_, ?_⟩
    · simp [List.count_append]
    · have h1 : 1 ≤ s.activeListings.count (toString e.punkIndex) :=
        List.count_pos_iff.mpr hmem
      have h2 : (s.activeListings ++ [toString e.punkIndex]).count
          (toString e.punkIndex) =
          s.activeListings.count (toString e.punkIndex) + 1 := by
        simp [List.count_append]
      rw [h2]
      omega
  · exact ⟨by decide, by decide, by decide, by decide⟩

/-- Witness for C10: offering punk 7 when "7" is already the sole entry
of the active-listing collection appends a second "7". -/
theorem c10_duplicate_active_listings_witness :
    toString evC3.punkIndex ∈ stC10a.activeListings ∧
    ∃ s2, (handlePunkOffered envW storeC10 evC3).states
        (envW.timestampToId (toI32 evC3.blockTimestamp) 0) = some s2 ∧
      s2.activeListings =
        stC10a.activeListings ++ [toString evC3.punkIndex] ∧
      s2.activeListings.count (toString evC3.punkIndex) =
        stC10a.activeListings.count (toString evC3.punkIndex) + 1 ∧
      2 ≤ s2.activeListings.count (toString evC3.punkIndex) :=
  ⟨by decide,
   c10_duplicate_active_listings.1 envW storeC10 evC3 stC10a (by decide)
     (by decide) (by decide) (by decide)⟩

end CryptoPunks
